import Mathlib

/-!
The game creation routine of `create-game.js`.

A shallow embedding of `src/create-game.js`.  The script is one asynchronous
function, `createGame`, that talks to a chain client (ethers) and to the
console.  Its behaviour is a function of what the outside world answers, so
the embedding is

* `Env`   : one field per external call of the script, giving the outcome of
            that call as a function of its arguments: a value, or a thrown
            value (`Thrown`: an error object, or `undefined` or `null`, on
            which reading a property throws);
* `Event` : what the script does that is visible from outside: every call into
            the chain client, and every console line;
* `Exec`  : a computation that appends to the list of events and either
            returns a value or throws (`await` is sequential, so a rejected
            promise is a thrown value at the `await`);
* `createGame` : the function, statement for statement: its `try` block
            (`tryBlock`, with the two inner `try` statements `predictAddress`
            and `simulate`) and its `catch` block (`catchBlock`).

An execution is `run env`; `trace env` is what it did and `result env` how it
ended.
-/

namespace CreateGame

/-! ## Values -/

/-- A byte string (`Uint8Array`); each element is meant to be below 256. -/
abbrev Bytes := List Nat

/-- Every element is a byte. -/
def ValidBytes (bs : Bytes) : Prop := ∀ b ∈ bs, b < 256

instance (bs : Bytes) : Decidable (ValidBytes bs) := by
  unfold ValidBytes; infer_instance

/-- An error object, as far as the script reads it.  Every value the chain
client itself throws is one. -/
structure JsError where
  /-- The property `error.message`. -/
  message : String
  /-- The property `error.reason`. -/
  reason : Option String := none
  /-- The property `error.code`. -/
  code : Option String := none
  /-- The property `error.transaction`. -/
  transaction : Option String := none
  /-- The property `error.receipt`. -/
  receipt : Option String := none
  /-- The property `error.data`. -/
  data : Option String := none
  /-- The property `error.error.message` (`none` when `error.error` or its
  message is missing). -/
  inner : Option String := none
deriving DecidableEq, Repr

/-- A thrown value (the value a promise is rejected with).  JavaScript lets
any value be thrown: reading a property of `undefined` or `null` throws a
`TypeError`, reading one of any other value does not (a thrown primitive reads
as an object without the properties the script looks at). -/
inductive Thrown
  | undefined
  | null
  | object (e : JsError)
deriving DecidableEq, Repr

/-- Whether the value is `undefined` or `null`. -/
def Thrown.isNullish : Thrown → Bool
  | .object _ => false
  | _ => true

/-- The error of reading a property of `undefined` or `null`. -/
def propTypeError : JsError :=
  { message := "Cannot read properties of undefined or null" }

/-- JavaScript truthiness of an optional string property: defined and not
the empty string. -/
def truthy : Option String → Bool
  | none => false
  | some s => s != ""

/-- An argument of `console.log` / `console.error`. -/
inductive Val
  | str (s : String)
  | num (n : Nat)
  | thrown (v : Thrown)
  | opt (s : Option String)
deriving DecidableEq, Repr

/-- The object passed to `provider.call` and `provider.estimateGas`. -/
structure TxRequest where
  /-- The field `to`. -/
  dest : String
  /-- The field `data`. -/
  data : String
  /-- The field `from`. -/
  sender : String
deriving DecidableEq, Repr

/-- One entry of `receipt.logs`. -/
structure Log where
  topics : List String
  data : String
deriving DecidableEq, Repr

/-- A transaction receipt, as far as the script reads it. -/
structure Receipt where
  blockNumber : Nat
  logs : List Log
deriving DecidableEq, Repr

/-- The response of `gameFactory.createGame`. -/
structure TxResponse where
  hash : String
deriving DecidableEq, Repr

/-- The signer (`ethers.Wallet`), as far as the script reads it. -/
structure Signer where
  address : String
deriving DecidableEq, Repr

/-! ## Events and executions -/

/-- What one execution does that is visible from outside, in order. -/
inductive Event
  | newProvider (url : String)
  | newWallet (key : Option String)
  | newContract (address : String)
  | getCode (address : String)
  | getBalance (address : String)
  | randomBytes (n : Nat)
  | getGameAddress (salt : Bytes)
  | encodeFunctionData (fn : String) (salt : Bytes)
  | call (req : TxRequest)
  | parseError (data : String)
  | estimateGas (req : TxRequest)
  | createGame (salt : Bytes) (gasLimit : Nat)
  | wait (tx : TxResponse)
  | consoleLog (args : List Val)
  | consoleError (args : List Val)
deriving DecidableEq, Repr

/-- A computation: from the events so far to an outcome and the events after. -/
def Exec (α : Type) : Type := List Event → Except Thrown α × List Event

namespace Exec

/-- Return a value, do nothing. -/
def ret {α : Type} (a : α) : Exec α := fun t => (.ok a, t)

/-- Sequencing: a thrown error skips the rest. -/
def andThen {α β : Type} (x : Exec α) (f : α → Exec β) : Exec β := fun t =>
  match x t with
  | (.ok a, t1) => f a t1
  | (.error e, t1) => (.error e, t1)

/-- The statement `throw e`. -/
def throw {α : Type} (e : Thrown) : Exec α := fun t => (.error e, t)

/-- Record an event. -/
def emit (ev : Event) : Exec Unit := fun t => (.ok (), t ++ [ev])

/-- An external call: record it, and take its outcome from the world. -/
def perform {α : Type} (ev : Event) (outcome : Except Thrown α) : Exec α :=
  fun t => (outcome, t ++ [ev])

/-- The statement `try x catch (e) h e`. -/
def tryCatch {α : Type} (x : Exec α) (h : Thrown → Exec α) : Exec α := fun t =>
  match x t with
  | (.ok a, t1) => (.ok a, t1)
  | (.error e, t1) => h e t1

/-- Run `x`, and hand its outcome over as a value (the two arms of a
`try`/`catch` whose `catch` arm leaves the function). -/
def attempt {α : Type} (x : Exec α) : Exec (Except Thrown α) := fun t =>
  match x t with
  | (r, t1) => (.ok r, t1)

/-- The statement `if (c) x` without an `else`. -/
def when (c : Bool) (x : Exec Unit) : Exec Unit := fun t =>
  if c then x t else (.ok (), t)

/-- A computation of the script itself, without any event; what it throws is
an error object. -/
def ofExcept {α : Type} (r : Except JsError α) : Exec α := fun t =>
  match r with
  | .ok a => (.ok a, t)
  | .error e => (.error (.object e), t)

/-- Reading a property of a caught value: a `TypeError` when the value is
`undefined` or `null`. -/
def getProp (value : Thrown) (property : JsError → Option String) : Exec (Option String) :=
  match value with
  | .object e => ret (property e)
  | _ => throw (.object propTypeError)

end Exec

instance : Monad Exec where
  pure := Exec.ret
  bind := Exec.andThen

/-- The call `console.log(...args)`. -/
def consoleLog (args : List Val) : Exec Unit := Exec.emit (.consoleLog args)

/-- The call `console.error(...args)`. -/
def consoleError (args : List Val) : Exec Unit := Exec.emit (.consoleError args)

/-! ## Byte strings and hex strings of the chain client -/

/-- The table `HexCharacters` of the chain client. -/
def HexCharacters : List Char := "0123456789abcdef".toList

/-- The hex digit of a nibble. -/
def hexChar (n : Nat) : Char := HexCharacters.getD n '0'

/-- The two hex digits of each byte, high nibble first. -/
def hexChars : Bytes → List Char
  | [] => []
  | v :: rest => hexChar (v / 16 % 16) :: hexChar (v % 16) :: hexChars rest

/-- Modelled from the spec: `ethers.hexlify` of the chain-client library, which
is not part of the sources: the `0x` text of a byte string, two lower-case hex
digits per byte. -/
def hexlify (bytes : Bytes) : String := String.mk ('0' :: 'x' :: hexChars bytes)

/-- The value of a hex digit, either case. -/
def hexVal (c : Char) : Option Nat :=
  if '0' ≤ c ∧ c ≤ '9' then some (c.toNat - 48)
  else if 'a' ≤ c ∧ c ≤ 'f' then some (c.toNat - 87)
  else if 'A' ≤ c ∧ c ≤ 'F' then some (c.toNat - 55)
  else none

/-- Read hex digits two by two; `none` on an odd count or a non-digit. -/
def parsePairs : List Char → Option Bytes
  | [] => some []
  | [_] => none
  | h :: l :: rest =>
    match hexVal h, hexVal l, parsePairs rest with
    | some a, some b, some bs => some ((a * 16 + b) :: bs)
    | _, _, _ => none

/-- Modelled from the spec: `ethers.getBytes` of the chain-client library, which
is not part of the sources: the bytes of a `0x` hex text (an even number of
hex digits, either case), `none` for any other text (the library throws). -/
def getBytes (value : String) : Option Bytes :=
  match value.toList with
  | '0' :: x :: rest => if x = 'x' ∨ x = 'X' then parsePairs rest else none
  | _ => none

/-- The error the chain client throws on a text that is not a hex string. -/
def invalidBytesLike : JsError :=
  { message := "invalid BytesLike value", code := some "INVALID_ARGUMENT" }

/-- Modelled from the spec: `ethers.dataSlice(data, start)` of the chain-client
library, which is not part of the sources: the hex text of the bytes of `data`
from byte offset `start` on (step 10 of the spec: the payload at a fixed byte
offset, skipping the leading padding). -/
def dataSlice (data : String) (start : Nat) : Except JsError String :=
  match getBytes data with
  | none => .error invalidBytesLike
  | some bytes => .ok (hexlify (bytes.drop start))

/-! ## ABI encoding of `createGame(bytes32)` -/

/-- The error of the ABI coder on a value or payload it cannot handle. -/
def abiError (message : String) : JsError :=
  { message := message, code := some "INVALID_ARGUMENT" }

/-- Modelled from the spec: `interface.encodeFunctionData` for the function
`createGame(bytes32)` of `out/GameFactory.sol/GameFactory.json`, which is not
part of the sources.  The payload is the 4-byte selector of the function
followed by the one static `bytes32` argument, which takes exactly its 32
bytes; a value of another length is refused.  The selector is the start of a
hash of the signature and is taken as a parameter. -/
def encodeFunctionData (selector salt : Bytes) : Except JsError String :=
  if salt.length = 32 ∧ ValidBytes salt then .ok (hexlify (selector ++ salt))
  else .error (abiError "incorrect data length")

/-- Modelled from the spec: `interface.decodeFunctionData` for the function
`createGame(bytes32)`, which is not part of the sources: the payload must
start with the selector, and the argument is the 32 bytes after it. -/
def decodeFunctionData (selector : Bytes) (data : String) : Except JsError Bytes :=
  match getBytes data with
  | none => .error invalidBytesLike
  | some bytes =>
    if bytes.take 4 = selector then
      if 32 ≤ (bytes.drop 4).length then .ok ((bytes.drop 4).take 32)
      else .error (abiError "data out-of-bounds")
    else .error (abiError "data signature does not match function createGame")

/-! ## The outside world -/

/-- The outcome of every external call of the script, as a function of the
call's arguments.  `Except.error v` is a call that throws the value `v` (or
whose promise is rejected with `v`). -/
structure Env where
  /-- The value of `process.env.PRIVATE_KEY`. -/
  privateKey : Option String
  /-- The constructor `new ethers.JsonRpcProvider(url)`. -/
  newProvider : String → Except Thrown Unit
  /-- The constructor `new ethers.Wallet(key, provider)`. -/
  newWallet : Option String → Except Thrown Signer
  /-- The constructor `new ethers.Contract(address, abi, signer)`. -/
  newContract : String → Except Thrown Unit
  /-- The call `provider.getCode(address)`. -/
  getCode : String → Except Thrown String
  /-- The call `provider.getBalance(address)`. -/
  getBalance : String → Except Thrown Nat
  /-- The text `ethers.formatEther(balance)`. -/
  formatEther : Nat → String
  /-- The call `ethers.randomBytes(n)`. -/
  randomBytes : Nat → Except Thrown Bytes
  /-- The call `gameFactory.getGameAddress(salt)`. -/
  getGameAddress : Bytes → Except Thrown String
  /-- The call `gameFactory.interface.encodeFunctionData(fn, [salt])`. -/
  encodeFunctionData : String → Bytes → Except Thrown String
  /-- The call `provider.call(request)`. -/
  call : TxRequest → Except Thrown String
  /-- The call `gameFactory.interface.parseError(data)`; the value is `null`
  (`none`) or a description. -/
  parseError : String → Except Thrown (Option String)
  /-- The call `provider.estimateGas(request)`. -/
  estimateGas : TxRequest → Except Thrown Nat
  /-- The call `gameFactory.createGame(salt, overrides)` with the gas limit of
  the overrides. -/
  createGame : Bytes → Nat → Except Thrown TxResponse
  /-- The call `tx.wait()`; the value is a receipt or `null`. -/
  wait : TxResponse → Except Thrown (Option Receipt)
  /-- The text `ethers.id(signature)`: the hash of the signature. -/
  id : String → String

/-! ## The script -/

/-- The constant `GAME_FACTORY_ADDRESS` (line 5). -/
def GAME_FACTORY_ADDRESS : String := "0x85E433c027F2438375ce9eBA1C42A8CFFDC2CA5c"

/-- The constant `RPC_URL` (line 6). -/
def RPC_URL : String := "https://spicy-rpc.chiliz.com/"

/-- How an execution of `createGame` ends, when it ends without an error. -/
inductive Exit
  /-- Control reached the end of the `try` block (line 106). -/
  | done
  /-- The `return` of the gas-estimation handler (line 82). -/
  | returned
  /-- The top-level `catch` ran to its end (lines 108 to 114). -/
  | caught
deriving DecidableEq, Repr

/-- The error of reading a property of `null`. -/
def nullTypeError : JsError :=
  { message := "Cannot read properties of null" }

/-- The statement `try ... catch (predictError) ...` of lines 36 to 41: the
advisory prediction of the game address. -/
def predictAddress (env : Env) (salt : Bytes) : Exec Unit :=
  Exec.tryCatch
    (do
      let futureGameAddress ← Exec.perform (.getGameAddress salt) (env.getGameAddress salt)
      consoleLog [.str "Predicted game address:", .str futureGameAddress])
    (fun predictError =>
      consoleError [.str "Error predicting game address:", .thrown predictError])

/-- The statement `try ... catch (simulateError) ...` of lines 49 to 66: the
simulation of the call, `request` being the object of lines 50 to 54.  The
handler reads `simulateError.data` (line 58), which throws on `undefined` or
`null`. -/
def simulate (env : Env) (request : TxRequest) : Exec Unit :=
  Exec.tryCatch
    (do
      let result ← Exec.perform (.call request) (env.call request)
      consoleLog [.str "Simulation result:", .str result])
    (fun simulateError => do
      consoleError [.str "Error simulating transaction:", .thrown simulateError]
      let data ← Exec.getProp simulateError JsError.data
      Exec.when (truthy data)
        (Exec.tryCatch
          (do
            let decodedError ← Exec.perform
              (.parseError (data.getD "")) (env.parseError (data.getD ""))
            consoleError [.str "Decoded error:", .opt decodedError])
          (fun _ => consoleError [.str "Could not decode error data"])))

/-- The top-level `catch (error)` block, lines 108 to 114.  Nothing guards
its reads of `error.reason`, `error.code`, `error.transaction` and
`error.receipt`: on `undefined` or `null` the first of them throws. -/
def catchBlock (error : Thrown) : Exec Exit := do
  consoleError [.str "Error creating game:", .thrown error]
  let reason ← Exec.getProp error JsError.reason
  Exec.when (truthy reason) (consoleError [.str "Error reason:", .opt reason])
  let code ← Exec.getProp error JsError.code
  Exec.when (truthy code) (consoleError [.str "Error code:", .opt code])
  let transaction ← Exec.getProp error JsError.transaction
  Exec.when (truthy transaction) (consoleError [.str "Error transaction:", .opt transaction])
  let receipt ← Exec.getProp error JsError.receipt
  Exec.when (truthy receipt) (consoleError [.str "Error receipt:", .opt receipt])
  pure Exit.caught

/-- The error of line 22. -/
def notDeployed : JsError :=
  { message := "GameFactory contract is not deployed at the specified address" }

/-- The top-level `try` block, lines 9 to 107.  The handler of the gas
estimation reads `estimateError.error` (line 79), which throws on `undefined`
or `null`. -/
def tryBlock (env : Env) : Exec Exit := do
  Exec.perform (.newProvider RPC_URL) (env.newProvider RPC_URL)
  let signer ← Exec.perform (.newWallet env.privateKey) (env.newWallet env.privateKey)
  Exec.perform (.newContract GAME_FACTORY_ADDRESS) (env.newContract GAME_FACTORY_ADDRESS)
  let code ← Exec.perform (.getCode GAME_FACTORY_ADDRESS) (env.getCode GAME_FACTORY_ADDRESS)
  Exec.when (code = "0x") (Exec.throw (.object notDeployed))
  consoleLog [.str "Contract is deployed at the specified address"]
  let balance ← Exec.perform (.getBalance signer.address) (env.getBalance signer.address)
  consoleLog [.str "Account balance:", .str (env.formatEther balance), .str "CHZ"]
  let salt ← Exec.perform (.randomBytes 32) (env.randomBytes 32)
  consoleLog [.str "Generated salt:", .str (hexlify salt)]
  predictAddress env salt
  let data ← Exec.perform (.encodeFunctionData "createGame" salt)
    (env.encodeFunctionData "createGame" salt)
  consoleLog [.str "Encoded function call data:", .str data]
  consoleLog [.str "Simulating transaction..."]
  simulate env { dest := GAME_FACTORY_ADDRESS, data := data, sender := signer.address }
  consoleLog [.str "Estimating gas..."]
  let estimation ← Exec.attempt
    (do
      let estimatedGas ← Exec.perform
        (.estimateGas { dest := GAME_FACTORY_ADDRESS, data := data, sender := signer.address })
        (env.estimateGas { dest := GAME_FACTORY_ADDRESS, data := data, sender := signer.address })
      consoleLog [.str "Estimated gas:", .str (toString estimatedGas)])
  match estimation with
  | .error estimateError => do
    consoleError [.str "Error estimating gas:", .thrown estimateError]
    let revertReason ← Exec.getProp estimateError JsError.inner
    Exec.when (truthy revertReason) (consoleError [.str "Revert reason:", .opt revertReason])
    pure Exit.returned
  | .ok _ => do
    consoleLog [.str "Creating game..."]
    let tx ← Exec.perform (.createGame salt 3000000) (env.createGame salt 3000000)
    consoleLog [.str "Transaction hash:", .str tx.hash]
    let confirmed ← Exec.perform (.wait tx) (env.wait tx)
    let receipt ← (match confirmed with
      | some r => pure r
      | none => Exec.throw (.object nullTypeError) : Exec Receipt)
    consoleLog [.str "Transaction confirmed in block:", .num receipt.blockNumber]
    let event := receipt.logs.find?
      (fun log => log.topics.head? == some (env.id "GameCreated(address)"))
    (match event with
      | some event => do
        let gameAddress ← Exec.ofExcept (dataSlice event.data 12)
        consoleLog [.str "New game created at address:", .str gameAddress]
      | none =>
        consoleLog [.str "GameCreated event not found in the transaction logs"] : Exec Unit)
    pure Exit.done

/-- The function `createGame` (lines 8 to 115): the `try` block, and the
`catch` block on whatever it throws. -/
def createGame (env : Env) : Exec Exit :=
  Exec.tryCatch (tryBlock env) catchBlock

/-- One execution of the script in the world `env`: how it ends (a value, or
the error that `createGame` itself raises), and what it did. -/
def run (env : Env) : Except Thrown Exit × List Event := createGame env []

/-- The events of the execution in the world `env`. -/
def trace (env : Env) : List Event := (run env).2

/-- The way the execution in the world `env` ends. -/
def result (env : Env) : Except Thrown Exit := (run env).1

/-! ## Reading an execution -/

/-- Whether the event is a call out of the script (anything but a console line). -/
def Event.isCall : Event → Bool
  | .consoleLog _ => false
  | .consoleError _ => false
  | _ => true

/-- The calls out of the script, in order. -/
def calls (t : List Event) : List Event := t.filter Event.isCall

/-- What a console line says about the event scan, if it is one of its two
lines: the reported game address (line 103), or that the event was not found
(line 105). -/
def Event.scanReport : Event → Option (Option String)
  | .consoleLog [.str label, .str gameAddress] =>
    if label = "New game created at address:" then some (some gameAddress) else none
  | .consoleLog [.str line] =>
    if line = "GameCreated event not found in the transaction logs" then some none else none
  | _ => none

/-- The outcomes of the event scan that the execution reported, in order. -/
def scanReports (t : List Event) : List (Option String) := t.filterMap Event.scanReport

/-! ## The events of each part of the script -/

/-- The console lines of the top-level `catch` block. -/
def catchLines : Thrown → List Event
  | .object e =>
    [.consoleError [.str "Error creating game:", .thrown (.object e)]]
      ++ (if truthy e.reason then [.consoleError [.str "Error reason:", .opt e.reason]] else [])
      ++ (if truthy e.code then [.consoleError [.str "Error code:", .opt e.code]] else [])
      ++ (if truthy e.transaction then
            [.consoleError [.str "Error transaction:", .opt e.transaction]] else [])
      ++ (if truthy e.receipt then
            [.consoleError [.str "Error receipt:", .opt e.receipt]] else [])
  | v => [.consoleError [.str "Error creating game:", .thrown v]]

/-- The way the top-level `catch` block ends: normally on an object, with the
`TypeError` of its first property read on `undefined` or `null`. -/
def catchExit : Thrown → Except Thrown Exit
  | .object _ => .ok .caught
  | _ => .error (.object propTypeError)

/-- The console line of the address prediction, by its outcome. -/
def predictLine : Except Thrown String → Event
  | .ok futureGameAddress =>
    .consoleLog [.str "Predicted game address:", .str futureGameAddress]
  | .error predictError =>
    .consoleError [.str "Error predicting game address:", .thrown predictError]

/-- The events of the address prediction. -/
def predictEvents (env : Env) (salt : Bytes) : List Event :=
  [.getGameAddress salt, predictLine (env.getGameAddress salt)]

/-- The console line after `parseError`, by its outcome. -/
def decodeLine : Except Thrown (Option String) → Event
  | .ok decodedError => .consoleError [.str "Decoded error:", .opt decodedError]
  | .error _ => .consoleError [.str "Could not decode error data"]

/-- The events of the simulation after the call itself, by its outcome. -/
def simulateLines (env : Env) : Except Thrown String → List Event
  | .ok result => [.consoleLog [.str "Simulation result:", .str result]]
  | .error (.object simulateError) =>
    .consoleError [.str "Error simulating transaction:", .thrown (.object simulateError)] ::
      (if truthy simulateError.data then
        [.parseError (simulateError.data.getD ""),
          decodeLine (env.parseError (simulateError.data.getD ""))]
      else [])
  | .error v => [.consoleError [.str "Error simulating transaction:", .thrown v]]

/-- The events of the simulation. -/
def simulateEvents (env : Env) (request : TxRequest) : List Event :=
  .call request :: simulateLines env (env.call request)

/-- The way the simulation statement ends: normally, except that on a call
rejected with `undefined` or `null` its handler throws the `TypeError` of
reading `simulateError.data`. -/
def simulateExit : Except Thrown String → Except Thrown Unit
  | .ok _ => .ok ()
  | .error (.object _) => .ok ()
  | .error _ => .error (.object propTypeError)

/-- Whether the simulation statement ends normally. -/
def simulates (env : Env) (request : TxRequest) : Prop :=
  ∀ v, env.call request = .error v → v.isNullish = false

/-! ## The paths of the script

The script is a straight line with exits.  `Vals` names the values it obtains
on the way, the stage predicates say how far the world lets it go, and `Path`
lists every way an execution can go, with its events. -/

/-- The values the script obtains from the world on its way. -/
structure Vals where
  signer : Signer
  balance : Nat
  salt : Bytes
  data : String
  gas : Nat
  tx : TxResponse
  receipt : Receipt

/-- The request object of lines 50 to 54 and 71 to 75. -/
def Vals.request (v : Vals) : TxRequest :=
  { dest := GAME_FACTORY_ADDRESS, data := v.data, sender := v.signer.address }

/-- The three constructors of lines 11 to 17 succeed. -/
@[reducible] def Connected (env : Env) (v : Vals) : Prop :=
  env.newProvider RPC_URL = .ok () ∧
  env.newWallet env.privateKey = .ok v.signer ∧
  env.newContract GAME_FACTORY_ADDRESS = .ok ()

/-- The deployment check passes: there is code, other than the empty `0x`. -/
@[reducible] def Deployed (env : Env) (v : Vals) : Prop :=
  Connected env v ∧ ∃ c, env.getCode GAME_FACTORY_ADDRESS = .ok c ∧ c ≠ "0x"

/-- The balance query succeeds. -/
@[reducible] def Funded (env : Env) (v : Vals) : Prop :=
  Deployed env v ∧ env.getBalance v.signer.address = .ok v.balance

/-- The salt is generated. -/
@[reducible] def Salted (env : Env) (v : Vals) : Prop :=
  Funded env v ∧ env.randomBytes 32 = .ok v.salt

/-- The call is encoded, and the simulation statement ends normally. -/
@[reducible] def Encoded (env : Env) (v : Vals) : Prop :=
  Salted env v ∧ env.encodeFunctionData "createGame" v.salt = .ok v.data ∧
    simulates env v.request

/-- The gas estimation succeeds. -/
@[reducible] def Estimated (env : Env) (v : Vals) : Prop :=
  Encoded env v ∧ env.estimateGas v.request = .ok v.gas

/-- The transaction is submitted. -/
@[reducible] def Submitted (env : Env) (v : Vals) : Prop :=
  Estimated env v ∧ env.createGame v.salt 3000000 = .ok v.tx

/-- The transaction is confirmed, with a receipt. -/
@[reducible] def Confirmed (env : Env) (v : Vals) : Prop :=
  Submitted env v ∧ env.wait v.tx = .ok (some v.receipt)

/-- The events up to the end of the constructors. -/
def tConnected (env : Env) : List Event :=
  [.newProvider RPC_URL, .newWallet env.privateKey, .newContract GAME_FACTORY_ADDRESS]

/-- The events up to the end of the deployment check. -/
def tDeployed (env : Env) : List Event :=
  tConnected env ++ [.getCode GAME_FACTORY_ADDRESS,
    .consoleLog [.str "Contract is deployed at the specified address"]]

/-- The events up to the end of the balance check. -/
def tFunded (env : Env) (v : Vals) : List Event :=
  tDeployed env ++ [.getBalance v.signer.address,
    .consoleLog [.str "Account balance:", .str (env.formatEther v.balance), .str "CHZ"]]

/-- The events up to the end of the address prediction. -/
def tSalted (env : Env) (v : Vals) : List Event :=
  tFunded env v ++ [.randomBytes 32, .consoleLog [.str "Generated salt:", .str (hexlify v.salt)]]
    ++ predictEvents env v.salt

/-- The events up to the gas estimation, which is not included. -/
def tEncoded (env : Env) (v : Vals) : List Event :=
  tSalted env v ++ [.encodeFunctionData "createGame" v.salt,
      .consoleLog [.str "Encoded function call data:", .str v.data],
      .consoleLog [.str "Simulating transaction..."]]
    ++ simulateEvents env v.request ++ [.consoleLog [.str "Estimating gas..."]]

/-- The events up to the submission, which is not included. -/
def tEstimated (env : Env) (v : Vals) : List Event :=
  tEncoded env v ++ [.estimateGas v.request,
    .consoleLog [.str "Estimated gas:", .str (toString v.gas)],
    .consoleLog [.str "Creating game..."]]

/-- The events up to the wait for the receipt, which is not included. -/
def tSubmitted (env : Env) (v : Vals) : List Event :=
  tEstimated env v ++ [.createGame v.salt 3000000,
    .consoleLog [.str "Transaction hash:", .str v.tx.hash]]

/-- The events up to the event scan, which is not included. -/
def tConfirmed (env : Env) (v : Vals) : List Event :=
  tSubmitted env v ++ [.wait v.tx,
    .consoleLog [.str "Transaction confirmed in block:", .num v.receipt.blockNumber]]

/-- The console lines after a failed gas estimation: those of the
`catch (estimateError)` block, lines 78 to 81, and, when its property read
throws, those of the top-level `catch` block. -/
def estimateLines : Thrown → List Event
  | .object e =>
    .consoleError [.str "Error estimating gas:", .thrown (.object e)] ::
      (if truthy e.inner then [.consoleError [.str "Revert reason:", .opt e.inner]] else [])
  | v =>
    .consoleError [.str "Error estimating gas:", .thrown v] ::
      catchLines (.object propTypeError)

/-- The way the execution ends after a failed gas estimation: by the `return`
of line 82, or, when the property read of line 79 throws, in the top-level
`catch` block. -/
def estimateExit : Thrown → Exit
  | .object _ => .returned
  | _ => .caught

/-- The test of line 98 on one log entry. -/
def isGameCreated (env : Env) (log : Log) : Bool :=
  log.topics.head? == some (env.id "GameCreated(address)")

/-- Every way an execution can go: how it ends and its events. -/
inductive Path (env : Env) : Except Thrown Exit × List Event → Prop
  | providerFails (thrown : Thrown) :
    env.newProvider RPC_URL = .error thrown →
    Path env (catchExit thrown, [.newProvider RPC_URL] ++ catchLines thrown)
  | walletFails (thrown : Thrown) :
    env.newProvider RPC_URL = .ok () →
    env.newWallet env.privateKey = .error thrown →
    Path env (catchExit thrown,
      [.newProvider RPC_URL, .newWallet env.privateKey] ++ catchLines thrown)
  | contractFails (thrown : Thrown) :
    env.newProvider RPC_URL = .ok () →
    (∃ s, env.newWallet env.privateKey = .ok s) →
    env.newContract GAME_FACTORY_ADDRESS = .error thrown →
    Path env (catchExit thrown, tConnected env ++ catchLines thrown)
  | getCodeFails (v : Vals) (thrown : Thrown) :
    Connected env v →
    env.getCode GAME_FACTORY_ADDRESS = .error thrown →
    Path env (catchExit thrown,
      tConnected env ++ [.getCode GAME_FACTORY_ADDRESS] ++ catchLines thrown)
  | notDeployed (v : Vals) :
    Connected env v →
    env.getCode GAME_FACTORY_ADDRESS = .ok "0x" →
    Path env (.ok .caught,
      tConnected env ++ [.getCode GAME_FACTORY_ADDRESS]
        ++ catchLines (.object CreateGame.notDeployed))
  | balanceFails (v : Vals) (thrown : Thrown) :
    Deployed env v →
    env.getBalance v.signer.address = .error thrown →
    Path env (catchExit thrown,
      tDeployed env ++ [.getBalance v.signer.address] ++ catchLines thrown)
  | saltFails (v : Vals) (thrown : Thrown) :
    Funded env v →
    env.randomBytes 32 = .error thrown →
    Path env (catchExit thrown, tFunded env v ++ [.randomBytes 32] ++ catchLines thrown)
  | encodeFails (v : Vals) (thrown : Thrown) :
    Salted env v →
    env.encodeFunctionData "createGame" v.salt = .error thrown →
    Path env (catchExit thrown,
      tSalted env v ++ [.encodeFunctionData "createGame" v.salt] ++ catchLines thrown)
  | simulateThrows (v : Vals) (thrown : Thrown) :
    Salted env v →
    env.encodeFunctionData "createGame" v.salt = .ok v.data →
    env.call v.request = .error thrown →
    thrown.isNullish = true →
    Path env (.ok .caught,
      tSalted env v ++ [.encodeFunctionData "createGame" v.salt,
          .consoleLog [.str "Encoded function call data:", .str v.data],
          .consoleLog [.str "Simulating transaction..."]]
        ++ simulateEvents env v.request ++ catchLines (.object propTypeError))
  | estimateFails (v : Vals) (thrown : Thrown) :
    Encoded env v →
    env.estimateGas v.request = .error thrown →
    Path env (.ok (estimateExit thrown),
      tEncoded env v ++ [.estimateGas v.request] ++ estimateLines thrown)
  | submitFails (v : Vals) (thrown : Thrown) :
    Estimated env v →
    env.createGame v.salt 3000000 = .error thrown →
    Path env (catchExit thrown,
      tEstimated env v ++ [.createGame v.salt 3000000] ++ catchLines thrown)
  | waitFails (v : Vals) (thrown : Thrown) :
    Submitted env v →
    env.wait v.tx = .error thrown →
    Path env (catchExit thrown, tSubmitted env v ++ [.wait v.tx] ++ catchLines thrown)
  | nullReceipt (v : Vals) :
    Submitted env v →
    env.wait v.tx = .ok none →
    Path env (.ok .caught,
      tSubmitted env v ++ [.wait v.tx] ++ catchLines (.object nullTypeError))
  | sliceFails (v : Vals) (event : Log) (e : JsError) :
    Confirmed env v →
    v.receipt.logs.find? (isGameCreated env) = some event →
    dataSlice event.data 12 = .error e →
    Path env (.ok .caught, tConfirmed env v ++ catchLines (.object e))
  | found (v : Vals) (event : Log) (gameAddress : String) :
    Confirmed env v →
    v.receipt.logs.find? (isGameCreated env) = some event →
    dataSlice event.data 12 = .ok gameAddress →
    Path env (.ok .done, tConfirmed env v ++
      [.consoleLog [.str "New game created at address:", .str gameAddress]])
  | notFound (v : Vals) :
    Confirmed env v →
    v.receipt.logs.find? (isGameCreated env) = none →
    Path env (.ok .done, tConfirmed env v ++
      [.consoleLog [.str "GameCreated event not found in the transaction logs"]])

/-- The values at the start, all but the signer still to come. -/
def Vals.start (s : Signer) : Vals :=
  { signer := s, balance := 0, salt := [], data := "", gas := 0, tx := { hash := "" },
    receipt := { blockNumber := 0, logs := [] } }

/-- The call to `parseError`, when the simulation makes it. -/
def parseCalls (env : Env) (request : TxRequest) : List Event :=
  match env.call request with
  | .error (.object e) => if truthy e.data then [.parseError (e.data.getD "")] else []
  | _ => []

/-- The call `tx.wait()`, when the submission gives a transaction. -/
def waitCalls (env : Env) (v : Vals) : List Event :=
  match env.createGame v.salt 3000000 with
  | .ok tx => [.wait tx]
  | .error _ => []

/-! ## Claims as they are written, and the hypothesis one of them lacks -/

/-- The hypothesis that C10 lacks: no call of the world is rejected with
`undefined` or `null`. -/
structure RejectsWithObjects (env : Env) : Prop where
  newProvider : ∀ a v, env.newProvider a = .error v → v.isNullish = false
  newWallet : ∀ a v, env.newWallet a = .error v → v.isNullish = false
  newContract : ∀ a v, env.newContract a = .error v → v.isNullish = false
  getCode : ∀ a v, env.getCode a = .error v → v.isNullish = false
  getBalance : ∀ a v, env.getBalance a = .error v → v.isNullish = false
  randomBytes : ∀ a v, env.randomBytes a = .error v → v.isNullish = false
  getGameAddress : ∀ a v, env.getGameAddress a = .error v → v.isNullish = false
  encodeFunctionData : ∀ a b v, env.encodeFunctionData a b = .error v → v.isNullish = false
  call : ∀ a v, env.call a = .error v → v.isNullish = false
  parseError : ∀ a v, env.parseError a = .error v → v.isNullish = false
  estimateGas : ∀ a v, env.estimateGas a = .error v → v.isNullish = false
  createGame : ∀ a b v, env.createGame a b = .error v → v.isNullish = false
  wait : ∀ a v, env.wait a = .error v → v.isNullish = false

/-- The claim C7 as it is written, for one execution: one value `data` is what
each simulation, each gas estimation and each submission of the execution is
handed as its payload (for the submission: the hex text of its argument). -/
def PayloadReused (env : Env) : Prop :=
  ∃ data : String,
    (∀ req, Event.call req ∈ trace env → req.data = data) ∧
    (∀ req, Event.estimateGas req ∈ trace env → req.data = data) ∧
    (∀ arg g, Event.createGame arg g ∈ trace env → hexlify arg = data)

/-- The hypothesis of C8 as it is written: every step that is not advisory
succeeds (the constructors, the deployment check, the salt, its encoding and
the gas estimation of any request). -/
def OnlyAdvisoryStepsFail (env : Env) : Prop :=
  env.newProvider RPC_URL = .ok () ∧
  (∃ s, env.newWallet env.privateKey = .ok s) ∧
  env.newContract GAME_FACTORY_ADDRESS = .ok () ∧
  (∃ c, env.getCode GAME_FACTORY_ADDRESS = .ok c ∧ c ≠ "0x") ∧
  (∃ salt, env.randomBytes 32 = .ok salt ∧
    ∃ data, env.encodeFunctionData "createGame" salt = .ok data) ∧
  (∀ req, ∃ gas, env.estimateGas req = .ok gas)

/-- The claim C9 as it is written, for one execution: the gas limit of a
submission exceeds the estimate that `estimateGas` returned. -/
def GasLimitExceedsEstimate (env : Env) : Prop :=
  ∀ salt g req estimate, Event.createGame salt g ∈ trace env →
    Event.estimateGas req ∈ trace env → env.estimateGas req = .ok estimate → estimate < g

/-! ## Sample worlds -/

/-- A selector for the sample world (the real one is a hash that the
sources do not contain). -/
def sampleSelector : Bytes := [0x12, 0x34, 0x56, 0x78]

/-- A salt of 32 bytes. -/
def sampleSalt : Bytes := List.range 32

/-- A game address of 20 bytes. -/
def sampleAddress : Bytes := (List.range 20).map (fun i => 0xa0 + i)

/-- The topic of the sample world for `GameCreated(address)`. -/
def sampleTopic : String := "0xfeed"

/-- A receipt with an unrelated log before the `GameCreated` log. -/
def sampleReceipt : Receipt :=
  { blockNumber := 7,
    logs := [ { topics := ["0xbeef"], data := "0x" },
              { topics := [sampleTopic], data := hexlify (List.replicate 12 0 ++ sampleAddress) },
              { topics := [sampleTopic], data := hexlify (List.replicate 32 1) } ] }

/-- A world in which every call succeeds. -/
def sampleEnv : Env :=
  { privateKey := some "key",
    newProvider := fun _ => .ok (),
    newWallet := fun _ => .ok { address := "0xsigner" },
    newContract := fun _ => .ok (),
    getCode := fun _ => .ok "0x6080",
    getBalance := fun _ => .ok 5,
    formatEther := fun n => toString n,
    randomBytes := fun _ => .ok sampleSalt,
    getGameAddress := fun _ => .ok "0xgame",
    encodeFunctionData := fun _ salt =>
      (CreateGame.encodeFunctionData sampleSelector salt).mapError Thrown.object,
    call := fun _ => .ok "0x",
    parseError := fun _ => .ok none,
    estimateGas := fun _ => .ok 100000,
    createGame := fun _ _ => .ok { hash := "0xhash" },
    wait := fun _ => .ok (some sampleReceipt),
    id := fun _ => sampleTopic }

/-- The request of the sample worlds. -/
def sampleRequest : TxRequest :=
  { dest := GAME_FACTORY_ADDRESS, data := hexlify (sampleSelector ++ sampleSalt),
    sender := "0xsigner" }

/-- A world in which the factory address has no code. -/
def emptyCodeEnv : Env := { sampleEnv with getCode := fun _ => .ok "0x" }

/-- A world in which the gas estimation fails with a revert. -/
def estimateFailEnv : Env :=
  { sampleEnv with
    estimateGas := fun _ =>
      .error (.object { message := "execution reverted", inner := some "revert" }) }

/-- A world in which the simulation fails with undecodable error data. -/
def simulationFailEnv : Env :=
  { sampleEnv with
    call := fun _ =>
      .error (.object { message := "call revert exception", data := some "0xdead" }),
    parseError := fun _ => .error (.object { message := "no matching error" }) }

/-- A world in which the prediction fails, the simulation fails and its
error data cannot be decoded. -/
def advisoryFailEnv : Env :=
  { sampleEnv with
    getGameAddress := fun _ => .error (.object { message := "call revert exception" }),
    call := fun _ =>
      .error (.object { message := "call revert exception", data := some "0xdead" }),
    parseError := fun _ => .error (.object { message := "no matching error" }) }

/-- A world whose receipt has logs, none of them the `GameCreated` event: one
of another event, one without topics, one with the hash as second topic. -/
def noEventEnv : Env :=
  { sampleEnv with
    wait := fun _ => .ok (some
      { blockNumber := 7,
        logs := [ { topics := ["0xbeef"], data := "0x" },
                  { topics := [], data := hexlify (List.replicate 12 0 ++ sampleAddress) },
                  { topics := ["0xbeef", sampleTopic], data := "0x" } ] }) }

/-- A world in which only the balance query fails. -/
def balanceFailEnv : Env :=
  { sampleEnv with
    getBalance := fun _ =>
      .error (.object { message := "could not detect network", code := some "NETWORK_ERROR" }) }

/-- A world in which the deployment check is rejected with `undefined`. -/
def undefinedRejectEnv : Env := { sampleEnv with getCode := fun _ => .error .undefined }

/-- A world in which the estimate is above the fixed gas limit. -/
def highEstimateEnv : Env := { sampleEnv with estimateGas := fun _ => .ok 5000000 }

/-! ## Unfolding executions -/

section Unfold

variable {α β : Type}

@[simp] theorem bind_run (x : Exec α) (f : α → Exec β) (t : List Event) :
    (x >>= f) t = Exec.andThen x f t := rfl

@[simp] theorem pure_run (a : α) (t : List Event) :
    (pure a : Exec α) t = (.ok a, t) := rfl

@[simp] theorem perform_ok (ev : Event) (a : α) (f : α → Exec β) (t : List Event) :
    Exec.andThen (Exec.perform ev (.ok a)) f t = f a (t ++ [ev]) := rfl

@[simp] theorem perform_error (ev : Event) (e : Thrown) (f : α → Exec β) (t : List Event) :
    Exec.andThen (Exec.perform ev (.error e : Except Thrown α)) f t = (.error e, t ++ [ev]) := rfl

@[simp] theorem emit_then (ev : Event) (f : Unit → Exec β) (t : List Event) :
    Exec.andThen (Exec.emit ev) f t = f () (t ++ [ev]) := rfl

@[simp] theorem throw_then (e : Thrown) (f : α → Exec β) (t : List Event) :
    Exec.andThen (Exec.throw e : Exec α) f t = (.error e, t) := rfl

@[simp] theorem ret_then (a : α) (f : α → Exec β) (t : List Event) :
    Exec.andThen (pure a : Exec α) f t = f a t := rfl

@[simp] theorem when_true_then (x : Exec Unit) (f : Unit → Exec β) (t : List Event) :
    Exec.andThen (Exec.when true x) f t = Exec.andThen x f t := rfl

@[simp] theorem when_false_then (x : Exec Unit) (f : Unit → Exec β) (t : List Event) :
    Exec.andThen (Exec.when false x) f t = f () t := rfl

@[simp] theorem bind_then {γ : Type} (x : Exec α) (g : α → Exec β) (f : β → Exec γ)
    (t : List Event) :
    Exec.andThen (x >>= g) f t = Exec.andThen x (fun a => Exec.andThen (g a) f) t := by
  show Exec.andThen (Exec.andThen x g) f t = _
  unfold Exec.andThen
  rcases x t with ⟨r, t1⟩
  cases r <;> rfl

@[simp] theorem emit_run (ev : Event) (t : List Event) :
    Exec.emit ev t = (.ok (), t ++ [ev]) := rfl

@[simp] theorem attempt_then (x : Exec α) (f : Except Thrown α → Exec β) (t : List Event) :
    Exec.andThen (Exec.attempt x) f t = f (x t).1 (x t).2 := rfl

@[simp] theorem ofExcept_ok_then (a : α) (f : α → Exec β) (t : List Event) :
    Exec.andThen (Exec.ofExcept (.ok a)) f t = f a t := rfl

@[simp] theorem ofExcept_error_then (e : JsError) (f : α → Exec β) (t : List Event) :
    Exec.andThen (Exec.ofExcept (.error e : Except JsError α)) f t =
      (.error (.object e), t) := rfl

@[simp] theorem getProp_object_then (e : JsError) (property : JsError → Option String)
    (f : Option String → Exec β) (t : List Event) :
    Exec.andThen (Exec.getProp (.object e) property) f t = f (property e) t := rfl

@[simp] theorem getProp_undefined_then (property : JsError → Option String)
    (f : Option String → Exec β) (t : List Event) :
    Exec.andThen (Exec.getProp .undefined property) f t = (.error (.object propTypeError), t) :=
  rfl

@[simp] theorem getProp_null_then (property : JsError → Option String)
    (f : Option String → Exec β) (t : List Event) :
    Exec.andThen (Exec.getProp .null property) f t = (.error (.object propTypeError), t) :=
  rfl

end Unfold

theorem catchBlock_run (v : Thrown) (t : List Event) :
    catchBlock v t = (catchExit v, t ++ catchLines v) := by
  unfold catchBlock consoleError
  cases v with
  | undefined => simp [catchExit, catchLines]
  | null => simp [catchExit, catchLines]
  | object e =>
    cases h1 : truthy e.reason <;> cases h2 : truthy e.code <;>
      cases h3 : truthy e.transaction <;> cases h4 : truthy e.receipt <;>
      simp [catchExit, catchLines, h1, h2, h3, h4]

@[simp] theorem catchExit_object (e : JsError) : catchExit (.object e) = .ok Exit.caught := rfl

theorem predictAddress_run (env : Env) (salt : Bytes) (t : List Event) :
    predictAddress env salt t = (.ok (), t ++ predictEvents env salt) := by
  unfold predictAddress predictEvents Exec.tryCatch consoleLog consoleError
  cases h : env.getGameAddress salt <;> simp [predictLine, Exec.emit]

theorem predictAddress_then {β : Type} (env : Env) (salt : Bytes) (f : Unit → Exec β)
    (t : List Event) :
    Exec.andThen (predictAddress env salt) f t = f () (t ++ predictEvents env salt) := by
  simp [Exec.andThen, predictAddress_run]

theorem simulate_run (env : Env) (request : TxRequest) (t : List Event) :
    simulate env request t =
      (simulateExit (env.call request), t ++ simulateEvents env request) := by
  unfold simulate simulateEvents Exec.tryCatch consoleLog consoleError
  cases h : env.call request with
  | ok r => simp [simulateLines, simulateExit, Exec.emit]
  | error v =>
    cases v with
    | undefined => simp [simulateLines, simulateExit]
    | null => simp [simulateLines, simulateExit]
    | object e =>
      cases hd : truthy e.data
      · simp [simulateLines, simulateExit, hd, Exec.when]
      · cases hp : env.parseError (e.data.getD "") <;>
          simp [simulateLines, simulateExit, hd, hp, Exec.when, Exec.tryCatch, decodeLine]

theorem simulateExit_ok (env : Env) (request : TxRequest) (h : simulates env request) :
    simulateExit (env.call request) = .ok () := by
  cases hc : env.call request with
  | ok r => rfl
  | error v =>
    cases v with
    | object e => rfl
    | undefined => exact absurd (h _ hc) (by decide)
    | null => exact absurd (h _ hc) (by decide)

theorem simulate_ok_then {β : Type} (env : Env) (request : TxRequest) (f : Unit → Exec β)
    (t : List Event) (h : simulates env request) :
    Exec.andThen (simulate env request) f t = f () (t ++ simulateEvents env request) := by
  simp [Exec.andThen, simulate_run, simulateExit_ok env request h]

theorem simulate_throws_then {β : Type} (env : Env) (request : TxRequest) (f : Unit → Exec β)
    (t : List Event) (v : Thrown) (h : env.call request = .error v)
    (hv : v.isNullish = true) :
    Exec.andThen (simulate env request) f t =
      (.error (.object propTypeError), t ++ simulateEvents env request) := by
  cases v with
  | object e => simp [Thrown.isNullish] at hv
  | undefined => simp [Exec.andThen, simulate_run, h, simulateExit]
  | null => simp [Exec.andThen, simulate_run, h, simulateExit]

/-! ## Every execution follows one path -/

set_option maxHeartbeats 1600000 in
theorem run_path (env : Env) : Path env (run env) := by
  cases h1 : env.newProvider RPC_URL with
  | error e =>
    have hr : run env = (catchExit e, [.newProvider RPC_URL] ++ catchLines e) := by
      simp [run, createGame, Exec.tryCatch, tryBlock, h1, catchBlock_run]
    rw [hr]; exact Path.providerFails e h1
  | ok u =>
  cases h2 : env.newWallet env.privateKey with
  | error e =>
    have hr : run env = (catchExit e,
        [.newProvider RPC_URL, .newWallet env.privateKey] ++ catchLines e) := by
      simp [run, createGame, Exec.tryCatch, tryBlock, h1, h2, catchBlock_run]
    rw [hr]; exact Path.walletFails e h1 h2
  | ok s =>
  cases h3 : env.newContract GAME_FACTORY_ADDRESS with
  | error e =>
    have hr : run env = (catchExit e, tConnected env ++ catchLines e) := by
      simp [run, createGame, Exec.tryCatch, tryBlock, h1, h2, h3, catchBlock_run, tConnected]
    rw [hr]; exact Path.contractFails e h1 ⟨s, h2⟩ h3
  | ok u3 =>
  have c1 : Connected env (Vals.start s) := ⟨h1, h2, h3⟩
  cases h4 : env.getCode GAME_FACTORY_ADDRESS with
  | error e =>
    have hr : run env = (catchExit e,
        tConnected env ++ [.getCode GAME_FACTORY_ADDRESS] ++ catchLines e) := by
      simp [run, createGame, Exec.tryCatch, tryBlock, h1, h2, h3, h4, catchBlock_run, tConnected]
    rw [hr]; exact Path.getCodeFails _ e c1 h4
  | ok code =>
  by_cases hc : code = "0x"
  · subst hc
    have hr : run env = (.ok .caught,
        tConnected env ++ [.getCode GAME_FACTORY_ADDRESS]
          ++ catchLines (.object notDeployed)) := by
      simp [run, createGame, Exec.tryCatch, tryBlock, h1, h2, h3, h4, catchBlock_run,
        tConnected]
    rw [hr]; exact Path.notDeployed _ c1 h4
  · have hd : decide (code = "0x") = false := by simp [hc]
    have c2 : Deployed env (Vals.start s) := ⟨c1, code, h4, hc⟩
    cases h5 : env.getBalance s.address with
    | error e =>
      have hr : run env = (catchExit e,
          tDeployed env ++ [.getBalance s.address] ++ catchLines e) := by
        simp [run, createGame, Exec.tryCatch, tryBlock, h1, h2, h3, h4, hd, h5, catchBlock_run,
          tConnected, tDeployed, consoleLog]
      rw [hr]; exact Path.balanceFails (Vals.start s) e c2 h5
    | ok balance =>
    cases h6 : env.randomBytes 32 with
    | error e =>
      have hr : run env = (catchExit e,
          tFunded env { Vals.start s with balance := balance } ++ [.randomBytes 32]
            ++ catchLines e) := by
        simp [run, createGame, Exec.tryCatch, tryBlock, h1, h2, h3, h4, hd, h5, h6,
          catchBlock_run, tConnected, tDeployed, tFunded, consoleLog, Vals.start]
      rw [hr]; exact Path.saltFails _ e ⟨⟨⟨h1, h2, h3⟩, code, h4, hc⟩, h5⟩ h6
    | ok salt =>
    cases h7 : env.encodeFunctionData "createGame" salt with
    | error e =>
      have hr : run env = (catchExit e,
          tSalted env { Vals.start s with balance := balance, salt := salt }
            ++ [.encodeFunctionData "createGame" salt] ++ catchLines e) := by
        simp [run, createGame, Exec.tryCatch, tryBlock, h1, h2, h3, h4, hd, h5, h6, h7,
          catchBlock_run, tConnected, tDeployed, tFunded, tSalted, consoleLog, Vals.start,
          predictAddress_then]
      rw [hr]; exact Path.encodeFails _ e ⟨⟨⟨⟨h1, h2, h3⟩, code, h4, hc⟩, h5⟩, h6⟩ h7
    | ok data =>
    by_cases hsim : simulates env
        { dest := GAME_FACTORY_ADDRESS, data := data, sender := s.address }
    swap
    · unfold simulates at hsim
      push_neg at hsim
      obtain ⟨thrown, hcall, hnull⟩ := hsim
      have hnull2 : thrown.isNullish = true := by
        cases thrown <;> simp_all [Thrown.isNullish]
      have hr : run env = (.ok .caught,
          tSalted env { Vals.start s with balance := balance, salt := salt, data := data }
            ++ [.encodeFunctionData "createGame" salt,
                .consoleLog [.str "Encoded function call data:", .str data],
                .consoleLog [.str "Simulating transaction..."]]
            ++ simulateEvents env
                { dest := GAME_FACTORY_ADDRESS, data := data, sender := s.address }
            ++ catchLines (.object propTypeError)) := by
        simp [run, createGame, Exec.tryCatch, tryBlock, h1, h2, h3, h4, hd, h5, h6, h7,
          catchBlock_run, tConnected, tDeployed, tFunded, tSalted, consoleLog, Vals.start,
          predictAddress_then, simulate_throws_then _ _ _ _ thrown hcall hnull2]
      rw [hr]; exact Path.simulateThrows _ thrown ⟨⟨⟨⟨h1, h2, h3⟩, code, h4, hc⟩, h5⟩, h6⟩ h7 hcall hnull2
    cases h8 : env.estimateGas
        { dest := GAME_FACTORY_ADDRESS, data := data, sender := s.address } with
    | error e =>
      have hr : run env = (.ok (estimateExit e),
          tEncoded env { Vals.start s with balance := balance, salt := salt, data := data }
            ++ [.estimateGas { dest := GAME_FACTORY_ADDRESS, data := data, sender := s.address }]
            ++ estimateLines e) := by
        cases e with
        | undefined =>
          simp [run, createGame, Exec.tryCatch, tryBlock, h1, h2, h3, h4, hd, h5, h6, h7, h8,
          tConnected, tDeployed, tFunded, tSalted, tEncoded, tEstimated, tSubmitted,
          tConfirmed, consoleLog, consoleError, Vals.start, Vals.request, predictAddress_then,
          simulate_ok_then, hsim, catchBlock_run, estimateLines, estimateExit]
        | null =>
          simp [run, createGame, Exec.tryCatch, tryBlock, h1, h2, h3, h4, hd, h5, h6, h7, h8,
          tConnected, tDeployed, tFunded, tSalted, tEncoded, tEstimated, tSubmitted,
          tConfirmed, consoleLog, consoleError, Vals.start, Vals.request, predictAddress_then,
          simulate_ok_then, hsim, catchBlock_run, estimateLines, estimateExit]
        | object e =>
          cases hi : truthy e.inner <;>
          simp [run, createGame, Exec.tryCatch, tryBlock, h1, h2, h3, h4, hd, h5, h6, h7, h8,
          tConnected, tDeployed, tFunded, tSalted, tEncoded, tEstimated, tSubmitted,
          tConfirmed, consoleLog, consoleError, Vals.start, Vals.request, predictAddress_then,
          simulate_ok_then, hsim, catchBlock_run, estimateLines, estimateExit, hi]
      rw [hr]; exact Path.estimateFails _ e ⟨⟨⟨⟨⟨h1, h2, h3⟩, code, h4, hc⟩, h5⟩, h6⟩, h7, hsim⟩ h8
    | ok gas =>
    cases h9 : env.createGame salt 3000000 with
    | error e =>
      have hr : run env = (catchExit e,
          tEstimated env
              { Vals.start s with balance := balance, salt := salt, data := data, gas := gas }
            ++ [.createGame salt 3000000] ++ catchLines e) := by
        simp [run, createGame, Exec.tryCatch, tryBlock, h1, h2, h3, h4, hd, h5, h6, h7, h8, h9,
          tConnected, tDeployed, tFunded, tSalted, tEncoded, tEstimated, tSubmitted,
          tConfirmed, consoleLog, consoleError, Vals.start, Vals.request, predictAddress_then,
          simulate_ok_then, hsim, catchBlock_run]
      rw [hr]; exact Path.submitFails _ e ⟨⟨⟨⟨⟨⟨h1, h2, h3⟩, code, h4, hc⟩, h5⟩, h6⟩, h7, hsim⟩, h8⟩ h9
    | ok tx =>
    cases h10 : env.wait tx with
    | error e =>
      have hr : run env = (catchExit e,
          tSubmitted env
              { Vals.start s with balance := balance, salt := salt, data := data, gas := gas,
                                  tx := tx }
            ++ [.wait tx] ++ catchLines e) := by
        simp [run, createGame, Exec.tryCatch, tryBlock, h1, h2, h3, h4, hd, h5, h6, h7, h8, h9,
          h10, tConnected, tDeployed, tFunded, tSalted, tEncoded, tEstimated, tSubmitted,
          tConfirmed, consoleLog, consoleError, Vals.start, Vals.request, predictAddress_then,
          simulate_ok_then, hsim, catchBlock_run]
      rw [hr]; exact Path.waitFails _ e ⟨⟨⟨⟨⟨⟨⟨h1, h2, h3⟩, code, h4, hc⟩, h5⟩, h6⟩, h7, hsim⟩, h8⟩, h9⟩ h10
    | ok confirmed =>
    cases confirmed with
    | none =>
      have hr : run env = (.ok .caught,
          tSubmitted env
              { Vals.start s with balance := balance, salt := salt, data := data, gas := gas,
                                  tx := tx }
            ++ [.wait tx] ++ catchLines (.object nullTypeError)) := by
        simp [run, createGame, Exec.tryCatch, tryBlock, h1, h2, h3, h4, hd, h5, h6, h7, h8, h9,
          h10, tConnected, tDeployed, tFunded, tSalted, tEncoded, tEstimated, tSubmitted,
          tConfirmed, consoleLog, consoleError, Vals.start, Vals.request, predictAddress_then,
          simulate_ok_then, hsim, catchBlock_run]
      rw [hr]; exact Path.nullReceipt _ ⟨⟨⟨⟨⟨⟨⟨h1, h2, h3⟩, code, h4, hc⟩, h5⟩, h6⟩, h7, hsim⟩, h8⟩, h9⟩ h10
    | some receipt =>
    have c8 : Confirmed env
        { signer := s, balance := balance, salt := salt, data := data, gas := gas, tx := tx,
          receipt := receipt } :=
      ⟨⟨⟨⟨⟨⟨⟨⟨h1, h2, h3⟩, code, h4, hc⟩, h5⟩, h6⟩, h7, hsim⟩, h8⟩, h9⟩, h10⟩
    cases h11 : receipt.logs.find? (isGameCreated env) with
    | none =>
      have h11b : List.find? (fun log => log.topics.head? == some (env.id "GameCreated(address)"))
          receipt.logs = none := h11
      have hr : run env = (.ok .done,
          tConfirmed env
              { signer := s, balance := balance, salt := salt, data := data, gas := gas, tx := tx,
                receipt := receipt }
            ++ [.consoleLog [.str "GameCreated event not found in the transaction logs"]]) := by
        simp [run, createGame, Exec.tryCatch, tryBlock, h1, h2, h3, h4, hd, h5, h6, h7, h8, h9,
          h10, tConnected, tDeployed, tFunded, tSalted, tEncoded, tEstimated, tSubmitted,
          tConfirmed, consoleLog, consoleError, Vals.start, Vals.request, predictAddress_then,
          simulate_ok_then, hsim, catchBlock_run, h11b]
      rw [hr]; exact Path.notFound _ c8 h11
    | some event =>
      have h11b : List.find? (fun log => log.topics.head? == some (env.id "GameCreated(address)"))
          receipt.logs = some event := h11
      cases h12 : dataSlice event.data 12 with
      | error e =>
        have hr : run env = (.ok .caught,
            tConfirmed env
                { signer := s, balance := balance, salt := salt, data := data, gas := gas,
                  tx := tx, receipt := receipt }
              ++ catchLines (.object e)) := by
          simp [run, createGame, Exec.tryCatch, tryBlock, h1, h2, h3, h4, hd, h5, h6, h7, h8, h9,
          h10, tConnected, tDeployed, tFunded, tSalted, tEncoded, tEstimated, tSubmitted,
          tConfirmed, consoleLog, consoleError, Vals.start, Vals.request, predictAddress_then,
          simulate_ok_then, hsim, catchBlock_run, h11b, h12]
        rw [hr]; exact Path.sliceFails _ event e c8 h11 h12
      | ok gameAddress =>
        have hr : run env = (.ok .done,
            tConfirmed env
                { signer := s, balance := balance, salt := salt, data := data, gas := gas,
                  tx := tx, receipt := receipt }
              ++ [.consoleLog [.str "New game created at address:", .str gameAddress]]) := by
          simp [run, createGame, Exec.tryCatch, tryBlock, h1, h2, h3, h4, hd, h5, h6, h7, h8, h9,
          h10, tConnected, tDeployed, tFunded, tSalted, tEncoded, tEstimated, tSubmitted,
          tConfirmed, consoleLog, consoleError, Vals.start, Vals.request, predictAddress_then,
          simulate_ok_then, hsim, catchBlock_run, h11b, h12]
        rw [hr]; exact Path.found _ event gameAddress c8 h11 h12

/-! ## The calls and the scan reports of each path -/

section Observers

@[simp] theorem calls_nil : calls [] = [] := rfl

@[simp] theorem calls_append (a b : List Event) : calls (a ++ b) = calls a ++ calls b := by
  simp [calls]

@[simp] theorem calls_cons (ev : Event) (t : List Event) :
    calls (ev :: t) = if ev.isCall then ev :: calls t else calls t := by
  simp [calls, List.filter_cons]

theorem mem_calls {ev : Event} {t : List Event} (h : ev ∈ t) (hc : ev.isCall = true) :
    ev ∈ calls t := by
  simp [calls, List.mem_filter, h, hc]

theorem mem_of_mem_calls {ev : Event} {t : List Event} (h : ev ∈ calls t) : ev ∈ t := by
  simp [calls, List.mem_filter] at h
  exact h.1

@[simp] theorem calls_catchLines (v : Thrown) : calls (catchLines v) = [] := by
  cases v with
  | undefined => simp [catchLines, Event.isCall]
  | null => simp [catchLines, Event.isCall]
  | object e =>
    cases h1 : truthy e.reason <;> cases h2 : truthy e.code <;>
      cases h3 : truthy e.transaction <;> cases h4 : truthy e.receipt <;>
      simp [catchLines, Event.isCall, h1, h2, h3, h4]

@[simp] theorem calls_estimateLines (v : Thrown) : calls (estimateLines v) = [] := by
  cases v with
  | undefined => simp [estimateLines, Event.isCall]
  | null => simp [estimateLines, Event.isCall]
  | object e =>
    cases hi : truthy e.inner <;> simp [estimateLines, Event.isCall, hi]

@[simp] theorem calls_predictEvents (env : Env) (salt : Bytes) :
    calls (predictEvents env salt) = [.getGameAddress salt] := by
  unfold predictEvents
  cases env.getGameAddress salt <;> simp [Event.isCall, predictLine]

@[simp] theorem calls_simulateEvents (env : Env) (request : TxRequest) :
    calls (simulateEvents env request) = .call request :: parseCalls env request := by
  unfold simulateEvents parseCalls
  cases h : env.call request with
  | ok r => simp [Event.isCall, simulateLines]
  | error v =>
    cases v with
    | undefined => simp [Event.isCall, simulateLines]
    | null => simp [Event.isCall, simulateLines]
    | object e =>
      cases hd : truthy e.data
      · simp [Event.isCall, simulateLines, hd]
      · cases hp : env.parseError (e.data.getD "") <;>
          simp [Event.isCall, simulateLines, hd, hp, decodeLine]

@[simp] theorem mem_parseCalls (env : Env) (request : TxRequest) (ev : Event) :
    ev ∈ parseCalls env request ↔
      ∃ e, env.call request = .error (.object e) ∧ truthy e.data = true ∧
        ev = .parseError (e.data.getD "") := by
  unfold parseCalls
  cases h : env.call request with
  | ok r => simp
  | error v =>
    cases v with
    | undefined => simp
    | null => simp
    | object e => cases hd : truthy e.data <;> simp [hd]

@[simp] theorem scanReports_nil : scanReports [] = [] := rfl

@[simp] theorem scanReports_append (a b : List Event) :
    scanReports (a ++ b) = scanReports a ++ scanReports b := by
  simp [scanReports]

@[simp] theorem scanReports_cons (ev : Event) (t : List Event) :
    scanReports (ev :: t) =
      (match ev.scanReport with
        | some r => r :: scanReports t
        | none => scanReports t) := by
  cases h : ev.scanReport <;> simp [scanReports, List.filterMap_cons, h]

@[simp] theorem scanReports_catchLines (v : Thrown) : scanReports (catchLines v) = [] := by
  cases v with
  | undefined => simp [catchLines, Event.scanReport]
  | null => simp [catchLines, Event.scanReport]
  | object e =>
    cases h1 : truthy e.reason <;> cases h2 : truthy e.code <;>
      cases h3 : truthy e.transaction <;> cases h4 : truthy e.receipt <;>
      simp [catchLines, Event.scanReport, h1, h2, h3, h4]

@[simp] theorem scanReports_estimateLines (v : Thrown) :
    scanReports (estimateLines v) = [] := by
  cases v with
  | undefined => simp [estimateLines, Event.scanReport]
  | null => simp [estimateLines, Event.scanReport]
  | object e =>
    cases hi : truthy e.inner <;> simp [estimateLines, Event.scanReport, hi]

@[simp] theorem scanReports_predictEvents (env : Env) (salt : Bytes) :
    scanReports (predictEvents env salt) = [] := by
  unfold predictEvents
  cases env.getGameAddress salt <;> simp [Event.scanReport, predictLine]

@[simp] theorem scanReports_simulateEvents (env : Env) (request : TxRequest) :
    scanReports (simulateEvents env request) = [] := by
  unfold simulateEvents
  cases h : env.call request with
  | ok r => simp [Event.scanReport, simulateLines]
  | error v =>
    cases v with
    | undefined => simp [Event.scanReport, simulateLines]
    | null => simp [Event.scanReport, simulateLines]
    | object e =>
      cases hd : truthy e.data
      · simp [Event.scanReport, simulateLines, hd]
      · cases hp : env.parseError (e.data.getD "") <;>
          simp [Event.scanReport, simulateLines, hd, hp, decodeLine]

theorem calls_tConnected (env : Env) :
    calls (tConnected env) =
      [.newProvider RPC_URL, .newWallet env.privateKey, .newContract GAME_FACTORY_ADDRESS] := by
  simp [tConnected, Event.isCall]

theorem calls_tEncoded (env : Env) (v : Vals) :
    calls (tEncoded env v) =
      [.newProvider RPC_URL, .newWallet env.privateKey, .newContract GAME_FACTORY_ADDRESS,
        .getCode GAME_FACTORY_ADDRESS, .getBalance v.signer.address, .randomBytes 32,
        .getGameAddress v.salt, .encodeFunctionData "createGame" v.salt, .call v.request]
        ++ parseCalls env v.request := by
  simp [tEncoded, tSalted, tFunded, tDeployed, tConnected, Event.isCall]

theorem scanReports_tConfirmed (env : Env) (v : Vals) : scanReports (tConfirmed env v) = [] := by
  simp [tConfirmed, tSubmitted, tEstimated, tEncoded, tSalted, tFunded, tDeployed, tConnected,
    Event.scanReport]

end Observers

/-! ## The claims -/

/-- C1: in an execution in which the deployment check `getCode` answers the
empty code `0x`, that check is the last call out of the script (no balance
query, no address prediction, no encoding, no simulation, no gas estimation,
no submission, no wait), and the script ends in its top-level handler. -/
theorem not_deployed_stops (env : Env)
    (h : Event.getCode GAME_FACTORY_ADDRESS ∈ trace env)
    (h0 : env.getCode GAME_FACTORY_ADDRESS = .ok "0x") :
    calls (trace env) =
        [.newProvider RPC_URL, .newWallet env.privateKey, .newContract GAME_FACTORY_ADDRESS,
          .getCode GAME_FACTORY_ADDRESS] ∧
      result env = .ok .caught := by
  have hp := run_path env
  have hm := mem_calls h rfl
  clear h
  unfold trace result at *
  generalize run env = r at hp hm ⊢
  cases hp <;>
    simp_all [tConnected, tDeployed, tFunded, tSalted, tEncoded, tEstimated, tSubmitted,
      tConfirmed, Event.isCall, Connected, Deployed, Funded, Salted, Encoded, Estimated,
      Submitted, Confirmed]

theorem not_deployed_stops_witness :
    Event.getCode GAME_FACTORY_ADDRESS ∈ trace emptyCodeEnv ∧
    emptyCodeEnv.getCode GAME_FACTORY_ADDRESS = .ok "0x" ∧
    calls (trace emptyCodeEnv) =
        [.newProvider RPC_URL, .newWallet emptyCodeEnv.privateKey,
          .newContract GAME_FACTORY_ADDRESS, .getCode GAME_FACTORY_ADDRESS] ∧
      result emptyCodeEnv = .ok .caught :=
  ⟨by decide, rfl, not_deployed_stops emptyCodeEnv (by decide) rfl⟩

theorem estimate_failure_calls (env : Env) (req : TxRequest) (thrown : Thrown)
    (h : Event.estimateGas req ∈ calls (trace env))
    (h0 : env.estimateGas req = .error thrown) :
    result env = .ok (estimateExit thrown) ∧
      (∀ salt g, Event.createGame salt g ∉ calls (trace env)) ∧
      (∀ tx, Event.wait tx ∉ calls (trace env)) ∧
      scanReports (trace env) = [] := by
  have hp := run_path env
  unfold trace result at *
  generalize run env = r at hp h ⊢
  cases hp <;>
    simp_all [tConnected, tDeployed, tFunded, tSalted, tEncoded, tEstimated, tSubmitted,
      tConfirmed, Event.isCall, Event.scanReport, Connected, Deployed, Funded, Salted, Encoded,
      Estimated, Submitted, Confirmed]

/-- C2: in an execution in which `provider.estimateGas` fails, with whatever
thrown value, the submission `gameFactory.createGame` is not called, no
receipt is waited for, and neither line of the event scan is written.  On an
error object the script leaves through the `return` of the estimation handler;
on `undefined` or `null` the handler's property read throws and the script
ends in the top-level handler. -/
theorem estimate_failure_aborts (env : Env) (req : TxRequest) (thrown : Thrown)
    (h : Event.estimateGas req ∈ trace env)
    (h0 : env.estimateGas req = .error thrown) :
    (∀ e, thrown = .object e → result env = .ok .returned) ∧
      (thrown.isNullish = true → result env = .ok .caught) ∧
      (∀ salt g, Event.createGame salt g ∉ trace env) ∧
      (∀ tx, Event.wait tx ∉ trace env) ∧
      scanReports (trace env) = [] := by
  obtain ⟨h1, h2, h3, h4⟩ := estimate_failure_calls env req thrown (mem_calls h rfl) h0
  refine ⟨?_, ?_, fun salt g hm => h2 salt g (mem_calls hm rfl),
    fun tx hm => h3 tx (mem_calls hm rfl), h4⟩
  · rintro e rfl
    exact h1
  · intro hn
    cases thrown with
    | object e => simp [Thrown.isNullish] at hn
    | undefined => exact h1
    | null => exact h1

theorem estimate_failure_aborts_witness :
    Event.estimateGas sampleRequest ∈ trace estimateFailEnv ∧
    result estimateFailEnv = .ok .returned ∧
      (∀ salt g, Event.createGame salt g ∉ trace estimateFailEnv) ∧
      (∀ tx, Event.wait tx ∉ trace estimateFailEnv) ∧
      scanReports (trace estimateFailEnv) = [] :=
  have hthm := estimate_failure_aborts estimateFailEnv sampleRequest _ (by decide) rfl
  ⟨by decide, hthm.1 _ rfl, hthm.2.2⟩

/-- The calls of an execution whose gas estimation succeeds. -/
theorem calls_of_estimated (env : Env) (v : Vals) (h : Estimated env v) :
    calls (trace env) =
      calls (tEncoded env v) ++ [.estimateGas v.request, .createGame v.salt 3000000]
        ++ waitCalls env v := by
  have hp := run_path env
  unfold trace at *
  generalize run env = r at hp ⊢
  cases hp <;>
    simp_all [tConnected, tDeployed, tFunded, tSalted, tEncoded, tEstimated, tSubmitted,
      tConfirmed, Event.isCall, Connected, Deployed, Funded, Salted, Encoded, Estimated,
      Submitted, Confirmed, waitCalls, Vals.request, simulates]

/-- An execution that simulates has encoded the call. -/
theorem salted_of_call (env : Env) (req : TxRequest)
    (h : Event.call req ∈ trace env) :
    ∃ v, Salted env v ∧ env.encodeFunctionData "createGame" v.salt = .ok v.data ∧
      v.request = req := by
  have hp := run_path env
  have hm := mem_calls h rfl
  clear h
  unfold trace at *
  generalize run env = r at hp hm
  cases hp
  case simulateThrows v thrown c he hc hn =>
    exact ⟨v, c, he, by simp_all [tConnected, tDeployed, tFunded, tSalted, Event.isCall]⟩
  case estimateFails v e c he =>
    exact ⟨v, c.1, c.2.1, by simp_all [calls_tEncoded, Event.isCall]⟩
  case submitFails v e c he =>
    exact ⟨v, c.1.1, c.1.2.1, by simp_all [calls_tEncoded, tEstimated, Event.isCall]⟩
  case waitFails v e c he =>
    exact ⟨v, c.1.1.1, c.1.1.2.1, by
      simp_all [calls_tEncoded, tEstimated, tSubmitted, Event.isCall]⟩
  case nullReceipt v c he =>
    exact ⟨v, c.1.1.1, c.1.1.2.1, by
      simp_all [calls_tEncoded, tEstimated, tSubmitted, Event.isCall]⟩
  case sliceFails v ev e c hf hs =>
    exact ⟨v, c.1.1.1.1, c.1.1.1.2.1, by
      simp_all [calls_tEncoded, tEstimated, tSubmitted, tConfirmed, Event.isCall]⟩
  case found v ev a c hf hs =>
    exact ⟨v, c.1.1.1.1, c.1.1.1.2.1, by
      simp_all [calls_tEncoded, tEstimated, tSubmitted, tConfirmed, Event.isCall]⟩
  case notFound v c hf =>
    exact ⟨v, c.1.1.1.1, c.1.1.1.2.1, by
      simp_all [calls_tEncoded, tEstimated, tSubmitted, tConfirmed, Event.isCall]⟩
  all_goals
    simp_all [tConnected, tDeployed, tFunded, tSalted, Event.isCall]

/-- An execution that submits has estimated the gas, and submits with the
fixed gas limit. -/
theorem estimated_of_submit (env : Env) (salt : Bytes) (g : Nat)
    (h : Event.createGame salt g ∈ trace env) :
    ∃ v, Estimated env v ∧ v.salt = salt ∧ g = 3000000 := by
  have hp := run_path env
  have hm := mem_calls h rfl
  clear h
  unfold trace at *
  generalize run env = r at hp hm
  cases hp
  case submitFails v e c he =>
    exact ⟨v, c, by simp_all [calls_tEncoded, tEstimated, Event.isCall]⟩
  case waitFails v e c he =>
    exact ⟨v, c.1, by simp_all [calls_tEncoded, tEstimated, tSubmitted, Event.isCall]⟩
  case nullReceipt v c he =>
    exact ⟨v, c.1, by simp_all [calls_tEncoded, tEstimated, tSubmitted, Event.isCall]⟩
  case sliceFails v ev e c hf hs =>
    exact ⟨v, c.1.1, by
      simp_all [calls_tEncoded, tEstimated, tSubmitted, tConfirmed, Event.isCall]⟩
  case found v ev a c hf hs =>
    exact ⟨v, c.1.1, by
      simp_all [calls_tEncoded, tEstimated, tSubmitted, tConfirmed, Event.isCall]⟩
  case notFound v c hf =>
    exact ⟨v, c.1.1, by
      simp_all [calls_tEncoded, tEstimated, tSubmitted, tConfirmed, Event.isCall]⟩
  all_goals
    simp_all [tConnected, tDeployed, tFunded, tSalted, calls_tEncoded, Event.isCall]

/-- C3: in an execution in which the simulation `provider.call` fails, with
whatever error object (with or without data, decodable or not), and the gas
estimation of the same request succeeds, the submission
`gameFactory.createGame` is called. -/
theorem simulation_failure_proceeds (env : Env) (req : TxRequest) (e : JsError) (gas : Nat)
    (h : Event.call req ∈ trace env)
    (h0 : env.call req = .error (.object e))
    (h1 : env.estimateGas req = .ok gas) :
    ∃ salt, Event.createGame salt 3000000 ∈ trace env := by
  obtain ⟨v, hv, henc, rfl⟩ := salted_of_call env req h
  have hsim : simulates env v.request := by
    intro thrown hc
    rw [h0] at hc
    cases hc
    rfl
  have hest : Estimated env { v with gas := gas } := ⟨⟨hv, henc, hsim⟩, h1⟩
  refine ⟨v.salt, mem_of_mem_calls ?_⟩
  rw [calls_of_estimated env _ hest]
  simp

theorem simulation_failure_proceeds_witness :
    Event.call sampleRequest ∈ trace simulationFailEnv ∧
    (∃ salt, Event.createGame salt 3000000 ∈ trace simulationFailEnv) :=
  ⟨by decide,
    simulation_failure_proceeds simulationFailEnv sampleRequest _ 100000 (by decide) rfl rfl⟩

/-- An execution that waits for a receipt has submitted. -/
theorem submitted_of_wait (env : Env) (tx : TxResponse)
    (h : Event.wait tx ∈ trace env) : ∃ v, Submitted env v ∧ v.tx = tx := by
  have hp := run_path env
  have hm := mem_calls h rfl
  clear h
  unfold trace at *
  generalize run env = r at hp hm
  cases hp
  case waitFails v e c he =>
    exact ⟨v, c, by simp_all [calls_tEncoded, tEstimated, tSubmitted, Event.isCall]⟩
  case nullReceipt v c he =>
    exact ⟨v, c, by simp_all [calls_tEncoded, tEstimated, tSubmitted, Event.isCall]⟩
  case sliceFails v ev e c hf hs =>
    exact ⟨v, c.1, by
      simp_all [calls_tEncoded, tEstimated, tSubmitted, tConfirmed, Event.isCall]⟩
  case found v ev a c hf hs =>
    exact ⟨v, c.1, by
      simp_all [calls_tEncoded, tEstimated, tSubmitted, tConfirmed, Event.isCall]⟩
  case notFound v c hf =>
    exact ⟨v, c.1, by
      simp_all [calls_tEncoded, tEstimated, tSubmitted, tConfirmed, Event.isCall]⟩
  all_goals
    simp_all [tConnected, tDeployed, tFunded, tSalted, tEstimated, calls_tEncoded, Event.isCall]

/-- The world fixes the values of an execution that gets its receipt. -/
theorem confirmed_unique (env : Env) (v w : Vals) (hv : Confirmed env v) (hw : Confirmed env w) :
    w = v := by
  obtain ⟨⟨⟨⟨⟨⟨⟨⟨_, a2, _⟩, _⟩, a5⟩, a6⟩, a7, _⟩, a8⟩, a9⟩, a10⟩ := hv
  obtain ⟨⟨⟨⟨⟨⟨⟨⟨_, b2, _⟩, _⟩, b5⟩, b6⟩, b7, _⟩, b8⟩, b9⟩, b10⟩ := hw
  rcases v with ⟨s1, bal1, salt1, data1, gas1, tx1, r1⟩
  rcases w with ⟨s2, bal2, salt2, data2, gas2, tx2, r2⟩
  simp only [Vals.request] at *
  obtain rfl : s2 = s1 := by rw [a2] at b2; injection b2 with h; exact h.symm
  obtain rfl : bal2 = bal1 := by rw [a5] at b5; injection b5 with h; exact h.symm
  obtain rfl : salt2 = salt1 := by rw [a6] at b6; injection b6 with h; exact h.symm
  obtain rfl : data2 = data1 := by rw [a7] at b7; injection b7 with h; exact h.symm
  obtain rfl : gas2 = gas1 := by rw [a8] at b8; injection b8 with h; exact h.symm
  obtain rfl : tx2 = tx1 := by rw [a9] at b9; injection b9 with h; exact h.symm
  obtain rfl : r2 = r1 := by
    rw [a10] at b10; injection b10 with h; injection h with h; exact h.symm
  rfl

/-- The execution once the receipt is there: the event scan decides. -/
theorem run_of_confirmed (env : Env) (v : Vals) (h : Confirmed env v) :
    run env =
      match v.receipt.logs.find? (isGameCreated env) with
      | none => (.ok .done, tConfirmed env v ++
          [.consoleLog [.str "GameCreated event not found in the transaction logs"]])
      | some event =>
        match dataSlice event.data 12 with
        | .ok gameAddress => (.ok .done, tConfirmed env v ++
            [.consoleLog [.str "New game created at address:", .str gameAddress]])
        | .error e => (.ok .caught, tConfirmed env v ++ catchLines (.object e)) := by
  have hp := run_path env
  generalize run env = r at hp ⊢
  cases hp
  case sliceFails w ev e c hf hs =>
    obtain rfl := confirmed_unique env v w h c
    simp [hf, hs]
  case found w ev a c hf hs =>
    obtain rfl := confirmed_unique env v w h c
    simp [hf, hs]
  case notFound w c hf =>
    obtain rfl := confirmed_unique env v w h c
    simp [hf]
  all_goals
    simp_all [Connected, Deployed, Funded, Salted, Encoded, Estimated, Submitted, Confirmed,
      Vals.request, simulates]

/-! ## Hex texts -/

theorem hexVal_hexChar (n : Nat) (h : n < 16) : hexVal (hexChar n) = some n := by
  interval_cases n <;> decide

theorem parsePairs_hexChars (bs : Bytes) (h : ValidBytes bs) :
    parsePairs (hexChars bs) = some bs := by
  induction bs with
  | nil => rfl
  | cons v rest ih =>
    have hv : v < 256 := h v (List.mem_cons_self _ _)
    have hrest : ValidBytes rest := fun b hb => h b (List.mem_cons_of_mem _ hb)
    have h1 : hexVal (hexChar (v / 16 % 16)) = some (v / 16 % 16) :=
      hexVal_hexChar _ (Nat.mod_lt _ (by decide))
    have h2 : hexVal (hexChar (v % 16)) = some (v % 16) :=
      hexVal_hexChar _ (Nat.mod_lt _ (by decide))
    have h3 : v / 16 % 16 * 16 + v % 16 = v := by omega
    simp [hexChars, parsePairs, h1, h2, ih hrest, h3]

/-- Reading back the hex text of a byte string gives the byte string. -/
theorem getBytes_hexlify (bs : Bytes) (h : ValidBytes bs) : getBytes (hexlify bs) = some bs := by
  simp [getBytes, hexlify, parsePairs_hexChars bs h]

/-- The first entry that passes a test is what `find` returns. -/
theorem find_first {α : Type} (p : α → Bool) (pre : List α) (x : α) (post : List α)
    (hpre : ∀ y ∈ pre, p y = false) (hx : p x = true) :
    (pre ++ x :: post).find? p = some x := by
  induction pre with
  | nil => simp [hx]
  | cons y rest ih =>
    have hy : p y = false := hpre y (List.mem_cons_self _ _)
    rw [List.cons_append, List.find?_cons, hy]
    exact ih (fun z hz => hpre z (List.mem_cons_of_mem _ hz))

/-- C4: in an execution that gets its receipt, when the log list has an entry
whose first topic is the hash of `GameCreated(address)`, the script ends
normally and reports one address, taken from the first such entry in log
order: the hex text of the bytes of its data from offset 12 on.  When these
bytes are 12 zero bytes followed by a 20-byte address, the report is the hex
text of exactly those 20 bytes. -/
theorem event_scan_reports_address (env : Env) (tx : TxResponse) (receipt : Receipt)
    (pre : List Log) (event : Log) (post : List Log) (bytes : Bytes)
    (h : Event.wait tx ∈ trace env)
    (h0 : env.wait tx = .ok (some receipt))
    (hl : receipt.logs = pre ++ event :: post)
    (hpre : ∀ log ∈ pre, log.topics.head? ≠ some (env.id "GameCreated(address)"))
    (hev : event.topics.head? = some (env.id "GameCreated(address)"))
    (hb : getBytes event.data = some bytes) :
    result env = .ok .done ∧
      scanReports (trace env) = [some (hexlify (bytes.drop 12))] ∧
      ∀ address : Bytes, bytes = List.replicate 12 0 ++ address → address.length = 20 →
        scanReports (trace env) = [some (hexlify address)] := by
  obtain ⟨v, hv, rfl⟩ := submitted_of_wait env tx h
  have hc : Confirmed env { v with receipt := receipt } := ⟨hv, h0⟩
  have hf : receipt.logs.find? (isGameCreated env) = some event := by
    rw [hl]
    apply find_first
    · intro y hy
      simpa [isGameCreated] using hpre y hy
    · simp [isGameCreated, hev]
  have hs : dataSlice event.data 12 = .ok (hexlify (bytes.drop 12)) := by
    simp [dataSlice, hb]
  have hr := run_of_confirmed env _ hc
  simp only [hf, hs] at hr
  have h2 : scanReports (trace env) = [some (hexlify (bytes.drop 12))] := by
    simp [trace, hr, scanReports_tConfirmed, Event.scanReport]
  refine ⟨by simp [result, hr], h2, ?_⟩
  intro address hbytes _
  rw [h2, hbytes]
  simp

/-- C5: in an execution that gets its receipt, when no entry of the log list
has the hash of `GameCreated(address)` as its first topic (an empty log list
and entries without topics included), the script ends normally, at the end of
its `try` block and not in a handler, its last line is the line that says the
event was not found, and it reports no game address. -/
theorem event_scan_not_found (env : Env) (tx : TxResponse) (receipt : Receipt)
    (h : Event.wait tx ∈ trace env)
    (h0 : env.wait tx = .ok (some receipt))
    (hno : ∀ log ∈ receipt.logs, log.topics.head? ≠ some (env.id "GameCreated(address)")) :
    result env = .ok .done ∧
      scanReports (trace env) = [none] ∧
      (trace env).getLast? =
        some (.consoleLog [.str "GameCreated event not found in the transaction logs"]) := by
  obtain ⟨v, hv, rfl⟩ := submitted_of_wait env tx h
  have hc : Confirmed env { v with receipt := receipt } := ⟨hv, h0⟩
  have hf : receipt.logs.find? (isGameCreated env) = none := by
    simp [List.find?_eq_none, isGameCreated]
    exact hno
  have hr := run_of_confirmed env _ hc
  simp only [hf] at hr
  refine ⟨by simp [result, hr], ?_, ?_⟩
  · simp [trace, hr, scanReports_tConfirmed, Event.scanReport]
  · simp [trace, hr]

theorem event_scan_reports_address_witness :
    Event.wait { hash := "0xhash" } ∈ trace sampleEnv ∧
    sampleEnv.wait { hash := "0xhash" } = .ok (some sampleReceipt) ∧
    getBytes (hexlify (List.replicate 12 0 ++ sampleAddress)) =
      some (List.replicate 12 0 ++ sampleAddress) ∧
    sampleAddress.length = 20 ∧
    result sampleEnv = .ok .done ∧
    scanReports (trace sampleEnv) = [some (hexlify sampleAddress)] :=
  have hb : getBytes (hexlify (List.replicate 12 0 ++ sampleAddress)) =
      some (List.replicate 12 0 ++ sampleAddress) := getBytes_hexlify _ (by decide)
  have hthm := event_scan_reports_address sampleEnv { hash := "0xhash" } sampleReceipt
    [{ topics := ["0xbeef"], data := "0x" }]
    { topics := [sampleTopic], data := hexlify (List.replicate 12 0 ++ sampleAddress) }
    [{ topics := [sampleTopic], data := hexlify (List.replicate 32 1) }]
    (List.replicate 12 0 ++ sampleAddress)
    (by decide) rfl rfl (by decide) rfl hb
  ⟨by decide, rfl, hb, rfl, hthm.1, hthm.2.2 sampleAddress rfl rfl⟩

theorem event_scan_not_found_witness :
    Event.wait { hash := "0xhash" } ∈ trace noEventEnv ∧
    result noEventEnv = .ok .done ∧
      scanReports (trace noEventEnv) = [none] ∧
      (trace noEventEnv).getLast? =
        some (.consoleLog [.str "GameCreated event not found in the transaction logs"]) :=
  ⟨by decide,
    event_scan_not_found noEventEnv { hash := "0xhash" } _ (by decide) rfl (by decide)⟩

/-- C6: for every salt of 32 bytes, the payload that encodes the call
`createGame(salt)` decodes back to the salt. -/
theorem encode_decode_roundtrip (selector salt : Bytes)
    (hsel : selector.length = 4) (hvs : ValidBytes selector)
    (hsalt : salt.length = 32) (hv : ValidBytes salt) :
    ∃ payload, encodeFunctionData selector salt = .ok payload ∧
      decodeFunctionData selector payload = .ok salt := by
  have hall : ValidBytes (selector ++ salt) := by
    intro b hb
    rcases List.mem_append.1 hb with hb | hb
    · exact hvs b hb
    · exact hv b hb
  refine ⟨hexlify (selector ++ salt), by simp [encodeFunctionData, hsalt, hv], ?_⟩
  have ht : (selector ++ salt).take 4 = selector := by
    rw [← hsel]; exact List.take_left' rfl
  have hd : (selector ++ salt).drop 4 = salt := by
    rw [← hsel]; exact List.drop_left' rfl
  have hk : salt.take 32 = salt := by
    rw [← hsalt]; exact List.take_length _
  simp [decodeFunctionData, getBytes_hexlify _ hall, ht, hd, hsalt, hk]

theorem encode_decode_roundtrip_witness :
    sampleSelector.length = 4 ∧ sampleSalt.length = 32 ∧
    ∃ payload, encodeFunctionData sampleSelector sampleSalt = .ok payload ∧
      decodeFunctionData sampleSelector payload = .ok sampleSalt :=
  ⟨rfl, rfl, encode_decode_roundtrip sampleSelector sampleSalt rfl (by decide) rfl (by decide)⟩

@[simp] theorem mem_waitCalls (env : Env) (v : Vals) (ev : Event) :
    ev ∈ waitCalls env v ↔ ∃ tx, env.createGame v.salt 3000000 = .ok tx ∧ ev = .wait tx := by
  unfold waitCalls
  cases h : env.createGame v.salt 3000000 <;> simp

/-- C7, as written, fails: in the sample world the execution reaches the
submission, and the submission is handed the 32-byte salt, not the 36-byte
payload that the simulation and the estimation are handed. -/
theorem payload_not_reused_by_submission :
    Event.createGame sampleSalt 3000000 ∈ trace sampleEnv ∧ ¬ PayloadReused sampleEnv := by
  refine ⟨by decide, ?_⟩
  rintro ⟨data, hcall, -, hsub⟩
  have h1 : sampleRequest.data = data := hcall sampleRequest (by decide)
  have h2 : hexlify sampleSalt = data := hsub sampleSalt 3000000 (by decide)
  rw [← h1] at h2
  revert h2
  decide

/-- C7, amended: in an execution that reaches the submission, the value the
encode step produced for the salt is the data of every simulation request and
of every gas-estimation request (both are made), and the submission is handed
that same salt, not the encoded value. -/
theorem payload_reuse (env : Env) (salt : Bytes) (g : Nat)
    (h : Event.createGame salt g ∈ trace env) :
    ∃ data, env.encodeFunctionData "createGame" salt = .ok data ∧
      Event.encodeFunctionData "createGame" salt ∈ trace env ∧
      (∃ req, req.data = data ∧ Event.call req ∈ trace env ∧
        Event.estimateGas req ∈ trace env) ∧
      (∀ req, Event.call req ∈ trace env → req.data = data) ∧
      (∀ req, Event.estimateGas req ∈ trace env → req.data = data) ∧
      (∀ arg g2, Event.createGame arg g2 ∈ trace env → arg = salt) := by
  obtain ⟨v, hv, rfl, -⟩ := estimated_of_submit env salt g h
  have hcalls := calls_of_estimated env v hv
  rw [calls_tEncoded] at hcalls
  refine ⟨v.data, hv.1.2.1, mem_of_mem_calls (by simp [hcalls]),
    ⟨v.request, rfl, mem_of_mem_calls (by simp [hcalls]), mem_of_mem_calls (by simp [hcalls])⟩,
    ?_, ?_, ?_⟩
  · intro req hm
    have := mem_calls hm rfl
    simp [hcalls] at this
    rw [this]; rfl
  · intro req hm
    have := mem_calls hm rfl
    simp [hcalls] at this
    rw [this]; rfl
  · intro arg g2 hm
    have := mem_calls hm rfl
    simp [hcalls] at this
    exact this.1

theorem payload_reuse_witness :
    Event.createGame sampleSalt 3000000 ∈ trace sampleEnv ∧
    ∃ data, sampleEnv.encodeFunctionData "createGame" sampleSalt = .ok data ∧
      Event.encodeFunctionData "createGame" sampleSalt ∈ trace sampleEnv ∧
      (∃ req, req.data = data ∧ Event.call req ∈ trace sampleEnv ∧
        Event.estimateGas req ∈ trace sampleEnv) ∧
      (∀ req, Event.call req ∈ trace sampleEnv → req.data = data) ∧
      (∀ req, Event.estimateGas req ∈ trace sampleEnv → req.data = data) ∧
      (∀ arg g2, Event.createGame arg g2 ∈ trace sampleEnv → arg = sampleSalt) :=
  ⟨by decide, payload_reuse sampleEnv sampleSalt 3000000 (by decide)⟩

/-- The world fixes the values of an execution up to the gas estimate. -/
theorem estimated_unique (env : Env) (v w : Vals) (hv : Estimated env v)
    (hw : Estimated env w) :
    tEstimated env w = tEstimated env v ∧ w.salt = v.salt := by
  obtain ⟨⟨⟨⟨⟨⟨_, a2, _⟩, _⟩, a5⟩, a6⟩, a7, _⟩, a8⟩ := hv
  obtain ⟨⟨⟨⟨⟨⟨_, b2, _⟩, _⟩, b5⟩, b6⟩, b7, _⟩, b8⟩ := hw
  rcases v with ⟨s1, bal1, salt1, data1, gas1, tx1, r1⟩
  rcases w with ⟨s2, bal2, salt2, data2, gas2, tx2, r2⟩
  simp only [Vals.request] at *
  obtain rfl : s2 = s1 := by rw [a2] at b2; injection b2 with h; exact h.symm
  obtain rfl : bal2 = bal1 := by rw [a5] at b5; injection b5 with h; exact h.symm
  obtain rfl : salt2 = salt1 := by rw [a6] at b6; injection b6 with h; exact h.symm
  obtain rfl : data2 = data1 := by rw [a7] at b7; injection b7 with h; exact h.symm
  obtain rfl : gas2 = gas1 := by rw [a8] at b8; injection b8 with h; exact h.symm
  exact ⟨rfl, rfl⟩

/-- The events of an execution whose gas estimation succeeds begin with those
up to the submission, and the submission. -/
theorem trace_of_estimated (env : Env) (v : Vals) (h : Estimated env v) :
    ∃ rest, trace env = tEstimated env v ++ [.createGame v.salt 3000000] ++ rest := by
  have hp := run_path env
  unfold trace
  generalize run env = r at hp ⊢
  cases hp
  case submitFails w e c he =>
    obtain ⟨h1, h2⟩ := estimated_unique env v w h c
    exact ⟨catchLines e, by simp [h1, h2]⟩
  case waitFails w e c he =>
    obtain ⟨h1, h2⟩ := estimated_unique env v w h c.1
    exact ⟨_, by simp only [tSubmitted, h1, h2, List.append_assoc, List.cons_append,
      List.nil_append]; rfl⟩
  case nullReceipt w c he =>
    obtain ⟨h1, h2⟩ := estimated_unique env v w h c.1
    exact ⟨_, by simp only [tSubmitted, h1, h2, List.append_assoc, List.cons_append,
      List.nil_append]; rfl⟩
  case sliceFails w ev e c hf hs =>
    obtain ⟨h1, h2⟩ := estimated_unique env v w h c.1.1
    exact ⟨_, by simp only [tConfirmed, tSubmitted, h1, h2, List.append_assoc,
      List.cons_append, List.nil_append]; rfl⟩
  case found w ev a c hf hs =>
    obtain ⟨h1, h2⟩ := estimated_unique env v w h c.1.1
    exact ⟨_, by simp only [tConfirmed, tSubmitted, h1, h2, List.append_assoc,
      List.cons_append, List.nil_append]; rfl⟩
  case notFound w c hf =>
    obtain ⟨h1, h2⟩ := estimated_unique env v w h c.1.1
    exact ⟨_, by simp only [tConfirmed, tSubmitted, h1, h2, List.append_assoc,
      List.cons_append, List.nil_append]; rfl⟩
  all_goals
    simp_all [Connected, Deployed, Funded, Salted, Encoded, Estimated, Vals.request, simulates]

/-- The execution when the balance query fails. -/
theorem run_of_balance_failure (env : Env) (v : Vals) (thrown : Thrown)
    (h : Deployed env v) (hb : env.getBalance v.signer.address = .error thrown) :
    run env = (catchExit thrown,
      tDeployed env ++ [.getBalance v.signer.address] ++ catchLines thrown) := by
  have hp := run_path env
  generalize run env = r at hp ⊢
  cases hp
  case balanceFails w e c he =>
    have hs : w.signer = v.signer := by
      have a := h.1.2.1
      have b := c.1.2.1
      rw [a] at b
      injection b with hb2
      exact hb2.symm
    rw [hs] at he
    rw [hb] at he
    injection he with he
    subst he
    rw [hs]
  all_goals
    simp_all [Connected, Deployed, Funded, Salted, Encoded, Estimated, Submitted, Confirmed,
      Vals.request, simulates]

theorem head_mem_catchLines (v : Thrown) :
    Event.consoleError [.str "Error creating game:", .thrown v] ∈ catchLines v := by
  cases v <;> simp [catchLines]

/-- C8, as written, fails for the balance check: in a world in which every
step but the balance query succeeds, the balance query is the last call of the
execution, which ends in the top-level handler: no submission. -/
theorem balance_failure_gates :
    OnlyAdvisoryStepsFail balanceFailEnv ∧
    (∃ e, balanceFailEnv.getBalance "0xsigner" = .error e) ∧
    calls (trace balanceFailEnv) =
      [.newProvider RPC_URL, .newWallet (some "key"), .newContract GAME_FACTORY_ADDRESS,
        .getCode GAME_FACTORY_ADDRESS, .getBalance "0xsigner"] ∧
    (∀ salt g, Event.createGame salt g ∉ trace balanceFailEnv) ∧
    result balanceFailEnv = .ok .caught := by
  have hc : calls (trace balanceFailEnv) =
      [.newProvider RPC_URL, .newWallet (some "key"), .newContract GAME_FACTORY_ADDRESS,
        .getCode GAME_FACTORY_ADDRESS, .getBalance "0xsigner"] := by decide
  refine ⟨⟨rfl, ⟨_, rfl⟩, rfl, ⟨"0x6080", rfl, by decide⟩, ⟨sampleSalt, rfl, _, rfl⟩,
    fun _ => ⟨_, rfl⟩⟩, ⟨_, rfl⟩, hc, ?_, rfl⟩
  intro salt g hm
  have := mem_calls hm rfl
  rw [hc] at this
  simp at this

/-- C8, amended.  In every execution in which the constructors and the
deployment check succeed:

* when the balance query fails, whatever it throws, the failure is not
  swallowed at its own step: the balance query is the last call, there is no
  submission, and the top-level handler writes its line with the thrown value;
* when the balance query, the salt, the encoding and the gas estimation succeed
  and the simulation is not rejected with `undefined` or `null`, the
  prediction and the simulation are made, a failure of the prediction (whatever
  it throws) and a failure of the simulation are each logged by their own
  handler with the thrown value, and the submission is called. -/
theorem advisory_failures (env : Env) (signer : Signer) (code : String)
    (h1 : env.newProvider RPC_URL = .ok ())
    (h2 : env.newWallet env.privateKey = .ok signer)
    (h3 : env.newContract GAME_FACTORY_ADDRESS = .ok ())
    (h4 : env.getCode GAME_FACTORY_ADDRESS = .ok code) (hc : code ≠ "0x") :
    (∀ thrown, env.getBalance signer.address = .error thrown →
      calls (trace env) =
          [.newProvider RPC_URL, .newWallet env.privateKey, .newContract GAME_FACTORY_ADDRESS,
            .getCode GAME_FACTORY_ADDRESS, .getBalance signer.address] ∧
        (∀ salt g, Event.createGame salt g ∉ trace env) ∧
        Event.consoleError [.str "Error creating game:", .thrown thrown] ∈ trace env) ∧
    (∀ balance salt data gas,
      env.getBalance signer.address = .ok balance →
      env.randomBytes 32 = .ok salt →
      env.encodeFunctionData "createGame" salt = .ok data →
      (∀ thrown, env.call
          { dest := GAME_FACTORY_ADDRESS, data := data, sender := signer.address } = .error thrown →
        thrown.isNullish = false) →
      env.estimateGas
        { dest := GAME_FACTORY_ADDRESS, data := data, sender := signer.address } = .ok gas →
      Event.getGameAddress salt ∈ trace env ∧
        Event.call { dest := GAME_FACTORY_ADDRESS, data := data, sender := signer.address }
          ∈ trace env ∧
        (∀ thrown, env.getGameAddress salt = .error thrown →
          Event.consoleError [.str "Error predicting game address:", .thrown thrown]
            ∈ trace env) ∧
        (∀ thrown, env.call
            { dest := GAME_FACTORY_ADDRESS, data := data, sender := signer.address }
              = .error thrown →
          Event.consoleError [.str "Error simulating transaction:", .thrown thrown]
            ∈ trace env) ∧
        Event.createGame salt 3000000 ∈ trace env) := by
  constructor
  · intro thrown hb
    have hd : Deployed env (Vals.start signer) := ⟨⟨h1, h2, h3⟩, code, h4, hc⟩
    have hr := run_of_balance_failure env (Vals.start signer) thrown hd hb
    have hcalls : calls (trace env) =
        [.newProvider RPC_URL, .newWallet env.privateKey, .newContract GAME_FACTORY_ADDRESS,
          .getCode GAME_FACTORY_ADDRESS, .getBalance signer.address] := by
      simp [trace, hr, tDeployed, tConnected, Event.isCall, Vals.start]
    refine ⟨hcalls, ?_, ?_⟩
    · intro salt g hm
      have := mem_calls hm rfl
      rw [hcalls] at this
      simp at this
    · simp only [trace, hr]
      exact List.mem_append_right _ (head_mem_catchLines thrown)
  · intro balance salt data gas h5 h6 h7 hsim h8
    have hv : Estimated env
        { signer := signer, balance := balance, salt := salt, data := data, gas := gas,
          tx := { hash := "" }, receipt := { blockNumber := 0, logs := [] } } :=
      ⟨⟨⟨⟨⟨⟨h1, h2, h3⟩, code, h4, hc⟩, h5⟩, h6⟩, h7, hsim⟩, h8⟩
    obtain ⟨rest, htr⟩ := trace_of_estimated env _ hv
    refine ⟨?_, ?_, ?_, ?_, ?_⟩
    · simp [htr, tEstimated, tEncoded, tSalted, predictEvents]
    · simp [htr, tEstimated, tEncoded, tSalted, simulateEvents, Vals.request]
    · intro thrown hp
      simp [htr, tEstimated, tEncoded, tSalted, predictEvents, predictLine, hp]
    · intro thrown hcall
      have hn := hsim thrown hcall
      cases thrown with
      | undefined => simp [Thrown.isNullish] at hn
      | null => simp [Thrown.isNullish] at hn
      | object e =>
        simp [htr, tEstimated, tEncoded, tSalted, simulateEvents, simulateLines, Vals.request,
          hcall]
    · simp [htr]

theorem advisory_failures_witness :
    (∃ e, advisoryFailEnv.getGameAddress sampleSalt = .error (.object e) ∧
      Event.consoleError [.str "Error predicting game address:", .thrown (.object e)]
        ∈ trace advisoryFailEnv) ∧
    (∃ e, advisoryFailEnv.call sampleRequest = .error (.object e) ∧
      Event.consoleError [.str "Error simulating transaction:", .thrown (.object e)]
        ∈ trace advisoryFailEnv) ∧
    Event.createGame sampleSalt 3000000 ∈ trace advisoryFailEnv ∧
    (∃ thrown, balanceFailEnv.getBalance "0xsigner" = .error thrown ∧
      (∀ salt g, Event.createGame salt g ∉ trace balanceFailEnv) ∧
      Event.consoleError [.str "Error creating game:", .thrown thrown]
        ∈ trace balanceFailEnv) :=
  have hA := (advisory_failures balanceFailEnv { address := "0xsigner" } "0x6080"
    rfl rfl rfl rfl (by decide)).1 _ rfl
  have hB := (advisory_failures advisoryFailEnv { address := "0xsigner" } "0x6080"
    rfl rfl rfl rfl (by decide)).2 5 sampleSalt (hexlify (sampleSelector ++ sampleSalt)) 100000
    rfl rfl rfl (by intro thrown h; cases h; rfl) rfl
  ⟨⟨_, rfl, hB.2.2.1 _ rfl⟩, ⟨_, rfl, hB.2.2.2.1 _ rfl⟩, hB.2.2.2.2, ⟨_, rfl, hA.2.1, hA.2.2⟩⟩

/-- C9, as written, fails: with an estimate of 5000000 the script still submits
with the gas limit 3000000. -/
theorem gas_limit_below_estimate : ¬ GasLimitExceedsEstimate highEstimateEnv := by
  intro h
  have := h sampleSalt 3000000 sampleRequest 5000000 (by decide) (by decide) rfl
  exact absurd this (by decide)

/-- C9, amended: in an execution that reaches the submission, the gas limit of
the submission is the constant 3000000, whatever estimate `estimateGas`
returned in that execution; it exceeds the estimate exactly when the estimate
is below 3000000. -/
theorem gas_limit_fixed (env : Env) (salt : Bytes) (g : Nat)
    (h : Event.createGame salt g ∈ trace env) :
    g = 3000000 ∧
      ∃ req estimate, Event.estimateGas req ∈ trace env ∧
        env.estimateGas req = .ok estimate ∧ (estimate < g ↔ estimate < 3000000) := by
  obtain ⟨v, hv, rfl, rfl⟩ := estimated_of_submit env salt g h
  have hcalls := calls_of_estimated env v hv
  exact ⟨rfl, v.request, v.gas, mem_of_mem_calls (by simp [hcalls]), hv.2, Iff.rfl⟩

theorem gas_limit_fixed_witness :
    Event.createGame sampleSalt 3000000 ∈ trace highEstimateEnv ∧
    (3000000 = 3000000 ∧
      ∃ req estimate, Event.estimateGas req ∈ trace highEstimateEnv ∧
        highEstimateEnv.estimateGas req = .ok estimate ∧
        (estimate < 3000000 ↔ estimate < 3000000)) :=
  ⟨by decide, gas_limit_fixed highEstimateEnv sampleSalt 3000000 (by decide)⟩


theorem catchExit_ok (v : Thrown) (h : v.isNullish = false) : catchExit v = .ok Exit.caught := by
  cases v with
  | object e => rfl
  | undefined => simp [Thrown.isNullish] at h
  | null => simp [Thrown.isNullish] at h

theorem mapError_object (α : Type) (r : Except JsError α) (v : Thrown)
    (h : r.mapError Thrown.object = .error v) : v.isNullish = false := by
  cases r with
  | ok a => simp [Except.mapError] at h
  | error e =>
    simp [Except.mapError] at h
    subst h
    rfl

/-- C10, as written, fails: in a world in which the deployment check is
rejected with `undefined`, the top-level handler writes its first line and
then throws on its read of `error.reason`, so `createGame` itself ends with an
error, the `TypeError` of that read. -/
theorem createGame_raises_on_undefined :
    undefinedRejectEnv.getCode GAME_FACTORY_ADDRESS = .error .undefined ∧
    trace undefinedRejectEnv =
      [.newProvider RPC_URL, .newWallet (some "key"), .newContract GAME_FACTORY_ADDRESS,
        .getCode GAME_FACTORY_ADDRESS,
        .consoleError [.str "Error creating game:", .thrown .undefined]] ∧
    result undefinedRejectEnv = .error (.object propTypeError) ∧
    ¬ ∃ x, result undefinedRejectEnv = .ok x := by
  refine ⟨rfl, by decide, rfl, ?_⟩
  rintro ⟨x, hx⟩
  have h : result undefinedRejectEnv = .error (.object propTypeError) := rfl
  rw [h] at hx
  cases hx

/-- C10, amended: for every combination of outcomes of the external calls in
which no call is rejected with `undefined` or `null`, `createGame` itself ends
without an error: every failure not handled at its own step is taken by the
top-level handler, whose property reads then succeed. -/
theorem createGame_completes (env : Env) (h : RejectsWithObjects env) :
    ∃ x, result env = .ok x := by
  have hp := run_path env
  unfold result
  generalize run env = r at hp ⊢
  cases hp
  case providerFails thrown he => exact ⟨_, catchExit_ok _ (h.newProvider _ _ he)⟩
  case walletFails thrown _ he => exact ⟨_, catchExit_ok _ (h.newWallet _ _ he)⟩
  case contractFails thrown _ _ he => exact ⟨_, catchExit_ok _ (h.newContract _ _ he)⟩
  case getCodeFails v thrown _ he => exact ⟨_, catchExit_ok _ (h.getCode _ _ he)⟩
  case balanceFails v thrown _ he => exact ⟨_, catchExit_ok _ (h.getBalance _ _ he)⟩
  case saltFails v thrown _ he => exact ⟨_, catchExit_ok _ (h.randomBytes _ _ he)⟩
  case encodeFails v thrown _ he => exact ⟨_, catchExit_ok _ (h.encodeFunctionData _ _ _ he)⟩
  case submitFails v thrown _ he => exact ⟨_, catchExit_ok _ (h.createGame _ _ _ he)⟩
  case waitFails v thrown _ he => exact ⟨_, catchExit_ok _ (h.wait _ _ he)⟩
  all_goals exact ⟨_, rfl⟩

theorem createGame_completes_witness :
    (∃ e, balanceFailEnv.getBalance "0xsigner" = .error (.object e)) ∧
    ∃ x, result balanceFailEnv = .ok x :=
  ⟨⟨_, rfl⟩, createGame_completes balanceFailEnv
    { newProvider := fun _ _ h => by cases h
      newWallet := fun _ _ h => by cases h
      newContract := fun _ _ h => by cases h
      getCode := fun _ _ h => by cases h
      getBalance := fun _ _ h => by cases h; rfl
      randomBytes := fun _ _ h => by cases h
      getGameAddress := fun _ _ h => by cases h
      encodeFunctionData := fun _ b v h => mapError_object _ _ v h
      call := fun _ _ h => by cases h
      parseError := fun _ _ h => by cases h
      estimateGas := fun _ _ h => by cases h
      createGame := fun _ _ _ h => by cases h
      wait := fun _ _ h => by cases h }⟩

end CreateGame
